import Mathlib

/-!
Shallow embedding of the synthetic-data plugin layer of the 3S-Testing
repository: the fflows and timevae time-series plugins
(src/synthcity/plugins/time_series/plugin_fflows.py,
src/synthcity/plugins/time_series/plugin_timevae.py) and the survae
survival-analysis plugin
(src/synthcity/plugins/survival_analysis/plugin_survae.py), together with the
orchestration state they carry: encoders, sub-models and learned column lists.

External library components (the synthcity core encoders and models, torch,
numpy, pandas) are opaque to the plugin files under verification; their
behaviour is collected in a `Library` record of arbitrary functions, and every
method invocation performed by plugin code is recorded in a `Trace` so that
call order and read-only-ness can be stated.  Python attribute mutation is
rendered as explicit state passing: each `_fit`/`_generate` translation returns
the plugin state after the call alongside its `Except` result and its trace.
-/

namespace Synthcity

/-- Cell values of data frames; numeric contents are opaque to the plugin layer. -/
abbrev Val := Rat

/-- A two-dimensional numeric array (a numpy array, or the values of a frame). -/
abbrev Rows := List (List Val)

/-- Per-sample observation-time vectors (the temporal horizons). -/
abbrev Horizons := List (List Val)

/-- Python exceptions surfaced by the plugin code. -/
inductive PyError where
  | assertionError
  | attributeError
  | indexError
  | keyError (col : String)
  | valueError (msg : String)
  | runtimeError (msg : String)
deriving DecidableEq, Repr

/-- A pandas data frame: named columns plus a list of rows. -/
structure DataFrame where
  columns : List String
  rows : Rows
deriving DecidableEq, Repr

/-- pandas default integer column labels, for a frame built from a bare array. -/
def defaultColumns (n : Nat) : List String :=
  (List.range n).map toString

/-- pd.DataFrame(arr) with no explicit columns. -/
def DataFrame.ofRows (m : Rows) : DataFrame :=
  { columns := defaultColumns (m.headD []).length, rows := m }

/-- pd.DataFrame(df, columns=cols): reindex an existing frame by column names.
Columns absent from the source are filled with a missing-value placeholder
(pandas would fill NaN; no claim depends on the fill value). -/
def DataFrame.reindex (df : DataFrame) (cols : List String) : DataFrame :=
  { columns := cols,
    rows := df.rows.map fun row =>
      cols.map fun c =>
        match df.columns.findIdx? (· == c) with
        | some i => row.getD i 0
        | none => 0 }

/-- df[col]: select one column as a series; a missing label raises KeyError. -/
def DataFrame.getCol (df : DataFrame) (c : String) : Except PyError (List Val) :=
  match df.columns.findIdx? (· == c) with
  | some i => .ok (df.rows.map fun row => row.getD i 0)
  | none => .error (.keyError c)

/-- A Python scalar that can appear in a hyperparameter choice list or kwargs. -/
inductive PyVal where
  | num (q : Rat)
  | bool (b : Bool)
  | str (s : String)
deriving DecidableEq, Repr

/-- Keyword arguments, as an association list. -/
abbrev KwArgs := List (String × PyVal)

/-- A hyperparameter-space entry (synthcity.plugins.core.distribution).
IntegerDistribution defaults to step 1 when the source omits it. -/
inductive Distribution where
  | integerD (name : String) (low high step : Int)
  | floatD (name : String) (low high : Rat)
  | categoricalD (name : String) (choices : List PyVal)
deriving DecidableEq, Repr

/-- The synthesis schema argument of `_generate`; opaque to the plugin bodies. -/
structure Schema where
  domain : List String
deriving DecidableEq, Repr

/-- The `data_info` dictionary the base Plugin.fit stores on the instance,
describing the training loader's schema. -/
structure DataInfo where
  data_type : String
  static_features : List String
  temporal_features : List String
  outcome_features : List String
  time_to_event_column : String
  event_column : String
deriving DecidableEq, Repr

/-- The already-unpacked content of a DataLoader, by loader type
(X.unpack(pad=True) plus X.type()). -/
inductive DataLoaderData where
  | timeSeries (static : DataFrame) (temporal : List DataFrame)
      (horizons : Horizons) (outcome : DataFrame)
  | timeSeriesSurvival (static : DataFrame) (temporal : List DataFrame)
      (horizons : Horizons) (T E : List Val)
  | survivalAnalysis (data : DataFrame)
deriving DecidableEq, Repr

/-- X.type() of a DataLoader. -/
def DataLoaderData.dtype : DataLoaderData → String
  | .timeSeries .. => "time_series"
  | .timeSeriesSurvival .. => "time_series_survival"
  | .survivalAnalysis .. => "survival_analysis"

/-- One method invocation on an encoder or a sub-model, as performed by the
plugin bodies.  te = TimeSeriesTabularEncoder, oe = outcome TabularEncoder,
tsm = TimeSeriesModel, cov = TimeSeriesTabularAutoEncoder,
sp = SurvivalPipeline. -/
inductive MethodCall where
  | teFitTemporal
  | teTransformTemporal
  | teInverseTransformTemporal
  | oeFit
  | oeTransform
  | oeInverseTransform
  | oeActivationLayout
  | staticFit
  | staticGenerate
  | ffFit
  | ffSample
  | tsmFit
  | tsmPredict
  | covFit
  | covGenerate
  | spFit
  | spGenerate
deriving DecidableEq, Repr

/-- The calls that only read fitted state (transform / inverse_transform /
inverse_transform_temporal / activation_layout, predict, generate / sample);
the various fit calls re-train state and are not read-only. -/
def MethodCall.readOnly : MethodCall → Bool
  | .teFitTemporal | .oeFit | .staticFit | .ffFit | .tsmFit | .covFit | .spFit => false
  | _ => true

/-- The calls that fit a generative or predictive sub-model (encoder fits are
not sub-model fits). -/
def MethodCall.isSubModelFit : MethodCall → Bool
  | .staticFit | .ffFit | .tsmFit | .covFit | .spFit => true
  | _ => false

/-- The calls that draw from or query a fitted sub-model. -/
def MethodCall.isSubModelQuery : MethodCall → Bool
  | .staticGenerate | .ffSample | .tsmPredict | .covGenerate | .spGenerate => true
  | _ => false

/-- The calls named by the spec's encode phase: temporal_encoder.fit_temporal /
transform_temporal and outcome_encoder.fit / transform. -/
def MethodCall.isEncodeOp : MethodCall → Bool
  | .teFitTemporal | .teTransformTemporal | .oeFit | .oeTransform => true
  | _ => false

/-- The sequence of method invocations performed by one plugin call. -/
abbrev Trace := List MethodCall

/-- The sub-model fit events of a trace, in order. -/
def subModelFitsIn (tr : Trace) : Trace :=
  tr.filter MethodCall.isSubModelFit

/-- The sub-model draw/query events of a trace, in order. -/
def subModelDrawsIn (tr : Trace) : Trace :=
  tr.filter MethodCall.isSubModelQuery

/-- Whether every encode-phase call of a trace precedes every sub-model fit:
once the first sub-model fit happened, no further encode ops occur. -/
def encodePhaseFirst (tr : Trace) : Bool :=
  (tr.dropWhile fun c => !c.isSubModelFit).all fun c => !c.isEncodeOp

/-- Bool view of an Except result. -/
def exceptIsOk : Except PyError α → Bool
  | .ok _ => true
  | .error _ => false

/-- The train_args dictionary built by FourierFlowsPlugin.__init__. -/
structure TrainArgs where
  epochs : Nat
  batch_size : Nat
  learning_rate : Val
  display_step : Nat
deriving DecidableEq, Repr

/-- State of a TimeSeriesTabularEncoder (synthcity core, opaque): its
constructor argument plus an opaque fitted-state token updated by fit calls. -/
structure TimeSeriesTabularEncoderState where
  max_clusters : Nat
  state : Nat := 0
deriving DecidableEq, Repr

/-- State of a TabularEncoder (synthcity core, opaque). -/
structure TabularEncoderState where
  max_clusters : Nat
  state : Nat := 0
deriving DecidableEq, Repr

/-- State of a generic static-feature plugin obtained from
GenericPlugins().get(name, device=device). -/
structure GenericModelState where
  name : String
  device : String
  state : Nat := 0
deriving DecidableEq, Repr

/-- State of a FourierFlow temporal model (the fflows library, opaque),
holding its constructor arguments and an opaque fitted-state token. -/
structure FourierFlowState where
  hidden : Nat
  n_flows : Nat
  FFT : Bool
  flip : Bool
  normalize : Bool
  device : String
  state : Nat := 0
deriving DecidableEq, Repr

/-- State of a TimeSeriesModel outcome predictor (synthcity core, opaque).
Constructor arguments that a caller does not supply keep the library defaults,
modelled as none. -/
structure TimeSeriesModelState where
  task_type : String
  n_static_units_in : Nat
  n_temporal_units_in : Nat
  n_temporal_window : Nat
  output_shape : List Nat
  n_iter : Nat
  batch_size : Nat
  lr : Val
  device : String
  nonlin_out : List (String × Nat)
  n_static_units_hidden : Option Nat := none
  n_static_layers_hidden : Option Nat := none
  n_temporal_units_hidden : Option Nat := none
  n_temporal_layers_hidden : Option Nat := none
  mode : Option String := none
  n_iter_print : Option Nat := none
  weight_decay : Option Val := none
  window_size : Option Nat := none
  dropout : Option Val := none
  nonlin : Option String := none
  state : Nat := 0
deriving DecidableEq, Repr

/-- State of a TimeSeriesTabularAutoEncoder (synthcity core, opaque), the
joint static+temporal covariate model of the timevae plugin.  It records the
constructor arguments forwarded by TimeVAEPlugin._fit; the schema of the data
it was constructed on is kept as the static/temporal column lists. -/
structure CovModelState where
  static_columns : List String
  temporal_columns : List String
  n_iter : Nat
  lr : Val
  weight_decay : Val
  decoder_n_layers_hidden : Nat
  decoder_n_units_hidden : Nat
  decoder_nonlin : String
  decoder_nonlin_out_discrete : String
  decoder_nonlin_out_continuous : String
  decoder_batch_norm : Bool
  decoder_dropout : Val
  decoder_residual : Bool
  encoder_n_layers_hidden : Nat
  encoder_n_units_hidden : Nat
  encoder_nonlin : String
  encoder_batch_norm : Bool
  encoder_dropout : Val
  batch_size : Nat
  n_iter_print : Nat
  random_state : Nat
  clipping_value : Nat
  mode : String
  encoder_max_clusters : Nat
  encoder : Option Nat
  device : String
  state : Nat := 0
deriving DecidableEq, Repr

/-- State of a SurvivalPipeline (synthcity survival_analysis core, opaque),
as constructed by SurVAEPlugin._fit. -/
structure SurvivalPipelineState where
  model_name : String
  strategy : String
  uncensoring_model : String
  censoring_strategy : String
  device : String
  kwargs : KwArgs
  state : Nat := 0
deriving DecidableEq, Repr

/-- What the `_sample` closure inside `_generate` returns: the tuple shapes of
the time_series and time_series_survival branches. -/
inductive SampleOutput where
  | ts (static : DataFrame) (temporal : List DataFrame) (horizons : Horizons)
      (outcome : DataFrame)
  | tss (static : DataFrame) (temporal : List DataFrame) (horizons : Horizons)
      (T E : List Val)
deriving DecidableEq, Repr

/-- The opaque behaviour of every external component the plugin files call
into.  The plugin code under verification is parametric in this record: a fit
call replaces a component's opaque state token with the value such a function
returns, and transform/sample/predict calls are arbitrary functions of the
current state and the arguments.  Nothing in the claims depends on what these
functions compute. -/
structure Library where
  teFit : Nat → List DataFrame → Horizons → Nat
  teTransform : Nat → List DataFrame → Horizons → List DataFrame × Horizons
  teDecodeSample : Nat → DataFrame → List (List Val)
  teDecodeHorizon : Nat → List Val → List Val
  tabFit : Nat → DataFrame → Nat
  tabTransform : Nat → DataFrame → DataFrame
  tabInverse : Nat → DataFrame → Rows
  tabActivationLayout : Nat → String → String → List (String × Nat)
  genericFit : String → DataFrame → Nat
  genericGenerate : Nat → Nat → Rows
  ffFit : FourierFlowState → List DataFrame → TrainArgs → Nat
  ffSample : Nat → Nat → List Rows
  tsmFit : TimeSeriesModelState → Rows → List Rows → Horizons → Rows → Nat
  tsmPredict : Nat → Rows → List Rows → Horizons → Rows
  covFit : CovModelState → DataFrame → List DataFrame → Horizons → Nat
  covGenerate : Nat → Nat → Rows × List Rows × Horizons
  spFit : SurvivalPipelineState → DataFrame → Nat
  spGenerate : Nat → Nat → Schema → DataFrame
  assembleTS : SampleOutput → Nat → Schema → DataFrame
  tvaeHyperparameterSpace : KwArgs → List Distribution

/-- Modelled from the spec: TimeSeriesTabularEncoder.inverse_transform_temporal
is synthcity core code not under src/.  Per the spec, encoders
"invert-normalize feature representations" and "temporal sequences preserve
per-sample length/horizon", so decoding is applied sample by sample, keeping
order and count: the i-th decoded sequence and the i-th decoded horizon come
from the i-th encoded sequence and the i-th encoded horizon. -/
def TimeSeriesTabularEncoderState.inverse_transform_temporal (lib : Library)
    (e : TimeSeriesTabularEncoderState) (enc : List DataFrame) (hor : Horizons) :
    List Rows × Horizons :=
  (enc.map (lib.teDecodeSample e.state), hor.map (lib.teDecodeHorizon e.state))

/-- Modelled from the spec: TimeSeriesTabularAutoEncoder.generate is synthcity
core code not under src/.  Per the spec, generation decodes samples back
"into the original schema shape", so the produced static frame and per-sample
temporal frames carry the column names of the data the model was constructed
on; the numeric content stays opaque. -/
def CovModelState.generate (lib : Library) (m : CovModelState) (count : Nat) :
    DataFrame × List DataFrame × Horizons :=
  let (staticRaw, temporalRaw, horizons) := lib.covGenerate m.state count
  ({ columns := m.static_columns, rows := staticRaw },
   temporalRaw.map fun item => { columns := m.temporal_columns, rows := item },
   horizons)

/-! ## FourierFlowsPlugin (src/synthcity/plugins/time_series/plugin_fflows.py) -/

/-- Instance attributes of FourierFlowsPlugin.  Attributes a Python instance
only acquires later (in `_fit`, or `data_info` in the base-class `fit`) are
Option-typed and start as none. -/
structure FourierFlowsPlugin where
  static_model_name : String
  device : String
  train_args : TrainArgs
  temporal_model : Option FourierFlowState
  static_model : Option GenericModelState
  temporal_encoder : Option TimeSeriesTabularEncoderState
  outcome_encoder : Option TabularEncoderState
  outcome_model : Option TimeSeriesModelState := none
  temporal_encoded_columns : Option (List String) := none
  outcome_encoded_columns : Option (List String) := none
  static_columns : Option (List String) := none
  data_info : Option DataInfo := none
deriving DecidableEq, Repr

/-- FourierFlowsPlugin.__init__ (lines 51-93): stores the training arguments
and creates the temporal FourierFlow model, the generic static model, the
temporal encoder and the outcome encoder. -/
def FourierFlowsPlugin.init (n_iter batch_size : Nat) (lr : Val)
    (n_iter_print n_units_hidden n_flows : Nat) (FFT flip normalize : Bool)
    (static_model : String) (device : String) (encoder_max_clusters : Nat) :
    FourierFlowsPlugin :=
  { static_model_name := static_model
    device := device
    train_args :=
      { epochs := n_iter, batch_size := batch_size,
        learning_rate := lr, display_step := n_iter_print }
    temporal_model := some
      { hidden := n_units_hidden, n_flows := n_flows, FFT := FFT,
        flip := flip, normalize := normalize, device := device }
    static_model := some { name := static_model, device := device }
    temporal_encoder := some { max_clusters := encoder_max_clusters }
    outcome_encoder := some { max_clusters := encoder_max_clusters } }

/-- FourierFlowsPlugin.__init__ at its default arguments. -/
def FourierFlowsPlugin.initDefault : FourierFlowsPlugin :=
  FourierFlowsPlugin.init 500 128 (1/1000) 100 100 10 true true false
    "ctgan" "cpu" 10

/-- FourierFlowsPlugin.name (static method). -/
def FourierFlowsPlugin.name : String := "fflows"

/-- FourierFlowsPlugin.type (static method). -/
def FourierFlowsPlugin.type : String := "time_series"

/-- FourierFlowsPlugin.hyperparameter_space (lines 103-119); kwargs unused. -/
def FourierFlowsPlugin.hyperparameter_space (kwargs : KwArgs) : List Distribution :=
  [ .integerD "n_iter" 100 1000 100,
    .categoricalD "lr" [.num (1/1000), .num (2/10000), .num (1/10000)],
    .categoricalD "batch_size" [.num 100, .num 200, .num 500],
    .integerD "n_units_hidden" 50 150 50,
    .integerD "n_flows" 5 100 1,
    .categoricalD "FFT" [.bool true, .bool false],
    .categoricalD "flip" [.bool true, .bool false],
    .categoricalD "normalize" [.bool true, .bool false],
    .categoricalD "static_model" [.str "ctgan", .str "adsgan", .str "privbayes"],
    .integerD "encoder_max_clusters" 2 20 1 ]

/-- The method calls a successful FourierFlowsPlugin._fit performs, in source
order (lines 132, 133, 142, 145, 148, 149, 161, 166). -/
def fflowsFitTrace : Trace :=
  [.teFitTemporal, .teTransformTemporal, .staticFit, .ffFit,
   .oeFit, .oeTransform, .oeActivationLayout, .tsmFit]

/-- The body of FourierFlowsPlugin._fit after unpacking (lines 131-177),
statement by statement.  Errors raised part-way keep the attribute mutations
already performed, as in Python. -/
def FourierFlowsPlugin.fitBody (lib : Library) (p : FourierFlowsPlugin)
    (static : DataFrame) (temporal : List DataFrame) (horizons : Horizons)
    (outcome : DataFrame) : FourierFlowsPlugin × Except PyError Unit × Trace :=
  match p.temporal_encoder, p.static_model, p.temporal_model, p.outcome_encoder with
  | some te0, some sm0, some tm0, some oe0 =>
    -- self.temporal_encoder.fit_temporal(temporal, temporal_horizons)
    let te := { te0 with state := lib.teFit te0.max_clusters temporal horizons }
    let p := { p with temporal_encoder := some te }
    -- temporal_enc, temporal_horizons_enc = ...transform_temporal(temporal, temporal_horizons)
    let tEncPair := lib.teTransform te.state temporal horizons
    let temporal_enc := tEncPair.1
    -- static_data_with_horizons = np.concatenate([static, temporal_horizons], axis=1)
    if static.rows.length = horizons.length then
      let static_data_with_horizons := List.zipWith (· ++ ·) static.rows horizons
      -- self.static_model.fit(pd.DataFrame(static_data_with_horizons))
      let sm := { sm0 with
        state := lib.genericFit sm0.name (DataFrame.ofRows static_data_with_horizons) }
      let p := { p with static_model := some sm }
      -- self.temporal_model.fit(temporal_enc, **self.train_args)
      let tm := { tm0 with state := lib.ffFit tm0 temporal_enc p.train_args }
      let p := { p with temporal_model := some tm }
      -- self.outcome_encoder.fit(outcome)
      let oe := { oe0 with state := lib.tabFit oe0.max_clusters outcome }
      let p := { p with outcome_encoder := some oe }
      -- outcome_enc = self.outcome_encoder.transform(outcome)
      let outcome_enc := lib.tabTransform oe.state outcome
      match temporal with
      | [] =>
        -- temporal[0] inside the TimeSeriesModel constructor arguments
        (p, .error .indexError,
         [.teFitTemporal, .teTransformTemporal, .staticFit, .ffFit, .oeFit, .oeTransform])
      | t0 :: _ =>
        -- self.outcome_model = TimeSeriesModel(...)
        let om0 : TimeSeriesModelState :=
          { task_type := "regression"
            n_static_units_in := static.columns.length
            n_temporal_units_in := t0.columns.length
            n_temporal_window := t0.rows.length
            output_shape := [outcome_enc.columns.length]
            n_iter := p.train_args.epochs
            batch_size := p.train_args.batch_size
            lr := p.train_args.learning_rate
            device := p.device
            nonlin_out := lib.tabActivationLayout oe.state "softmax" "tanh" }
        -- self.outcome_model.fit(static, temporal, temporal_horizons, outcome_enc)
        let om := { om0 with
          state := lib.tsmFit om0 static.rows (temporal.map DataFrame.rows)
            horizons outcome_enc.rows }
        let p := { p with outcome_model := some om }
        match temporal_enc with
        | [] =>
          -- temporal_enc[0].columns at line 173
          (p, .error .indexError, fflowsFitTrace)
        | e0 :: _ =>
          let p := { p with
            temporal_encoded_columns := some e0.columns
            outcome_encoded_columns := some outcome_enc.columns
            static_columns := some static.columns }
          (p, .ok (), fflowsFitTrace)
    else
      (p, .error (.valueError "np.concatenate: mismatched shapes"),
       [.teFitTemporal, .teTransformTemporal])
  | _, _, _, _ => (p, .error .attributeError, [])

/-- FourierFlowsPlugin._fit (lines 121-177): the type assertion, the unpack of
the loader (with the survival outcome recombined into a two-column frame),
then the shared body. -/
def FourierFlowsPlugin.fitImpl (lib : Library) (p : FourierFlowsPlugin)
    (X : DataLoaderData) : FourierFlowsPlugin × Except PyError Unit × Trace :=
  match X with
  | .survivalAnalysis _ => (p, .error .assertionError, [])
  | .timeSeries static temporal horizons outcome =>
      FourierFlowsPlugin.fitBody lib p static temporal horizons outcome
  | .timeSeriesSurvival static temporal horizons T E =>
      let outcome : DataFrame :=
        { columns := ["time_to_event", "event"],
          rows := List.zipWith (fun a b => [a, b]) T E }
      FourierFlowsPlugin.fitBody lib p static temporal horizons outcome

/-- The time_series_survival return branch shared by both samplers: select
the time-to-event and the event column from the generated outcome frame and
return them alongside the static/temporal parts (plugin_fflows.py lines
232-239, plugin_timevae.py lines 298-305). -/
def survivalBranch (static : DataFrame) (temporal : List DataFrame)
    (horizons : Horizons) (outcome : DataFrame) (di : DataInfo) :
    Except PyError SampleOutput :=
  match outcome.getCol di.time_to_event_column with
  | .error e => .error e
  | .ok T =>
    match outcome.getCol di.event_column with
    | .error e => .error e
    | .ok E => .ok (.tss static temporal horizons T E)

/-- The method calls the `_sample` closure of FourierFlowsPlugin._generate
performs, in source order (lines 182, 192, 203, 216, 223); every call happens
before the data_type dispatch, so all return branches share this trace. -/
def fflowsSampleTrace : Trace :=
  [.staticGenerate, .ffSample, .teInverseTransformTemporal, .tsmPredict,
   .oeInverseTransform]

/-- The `_sample` closure of FourierFlowsPlugin._generate (lines 180-241),
with the fitted attributes already in hand. -/
def FourierFlowsPlugin.sampleCore (lib : Library)
    (te : TimeSeriesTabularEncoderState) (oe : TabularEncoderState)
    (sm : GenericModelState) (tm : FourierFlowState) (om : TimeSeriesModelState)
    (sc tc oc : List String) (di : DataInfo) (count : Nat) :
    Except PyError SampleOutput :=
  -- static_data_with_horizons = self.static_model.generate(count).numpy()
  let static_data_with_horizons := lib.genericGenerate sm.state count
  -- static = pd.DataFrame(sdwh[:, :len(static_columns)], columns=static_columns)
  let static1 : DataFrame :=
    { columns := sc, rows := static_data_with_horizons.map (List.take sc.length) }
  let temporal_horizons_enc := static_data_with_horizons.map (List.drop sc.length)
  -- temporal_enc_raw = self.temporal_model.sample(count)
  let temporal_enc_raw := lib.ffSample tm.state count
  let temporal_enc := temporal_enc_raw.map fun item =>
    ({ columns := tc, rows := item } : DataFrame)
  -- temporal_raw, temporal_horizons = ...inverse_transform_temporal(...)
  let decoded := te.inverse_transform_temporal lib temporal_enc temporal_horizons_enc
  let temporal_raw := decoded.1
  let temporal_horizons := decoded.2
  let temporal := temporal_raw.map fun item =>
    ({ columns := di.temporal_features, rows := item } : DataFrame)
  -- outcome_enc = pd.DataFrame(self.outcome_model.predict(...), columns=...)
  let outcome_enc : DataFrame :=
    { columns := oc,
      rows := lib.tsmPredict om.state static1.rows temporal_raw temporal_horizons }
  -- outcome = pd.DataFrame(self.outcome_encoder.inverse_transform(outcome_enc), ...)
  let outcome : DataFrame :=
    { columns := di.outcome_features, rows := lib.tabInverse oe.state outcome_enc }
  -- static = pd.DataFrame(static, columns=self.data_info["static_features"])
  let static := static1.reindex di.static_features
  if di.data_type = "time_series" then
    .ok (.ts static temporal temporal_horizons outcome)
  else if di.data_type = "time_series_survival" then
    survivalBranch static temporal temporal_horizons outcome di
  else
    .error (.runtimeError "unknow data type")

/-- The `_sample` closure as invoked on a plugin instance: attribute lookup
first (each missing attribute raises AttributeError; lookups are validated up
front since only fitted plugins are sampled from), then the body. -/
def FourierFlowsPlugin.sampleImpl (lib : Library) (p : FourierFlowsPlugin)
    (count : Nat) : Except PyError SampleOutput × Trace :=
  match p.temporal_encoder, p.outcome_encoder, p.static_model, p.temporal_model,
      p.outcome_model, p.static_columns, p.temporal_encoded_columns,
      p.outcome_encoded_columns, p.data_info with
  | some te, some oe, some sm, some tm, some om, some sc, some tc, some oc, some di =>
      (FourierFlowsPlugin.sampleCore lib te oe sm tm om sc tc oc di count,
       fflowsSampleTrace)
  | _, _, _, _, _, _, _, _, _ => (.error .attributeError, [])

/-- Modelled from the spec: Plugin._safe_generate_time_series is base-class
code not under src/.  Per the spec it consumes the sampler output and
reassembles it "into the original schema shape"; it invokes the sampler and
post-processes its output without touching the plugin's encoders or
sub-models. -/
def safeGenerateTimeSeries (lib : Library)
    (sampler : Nat → Except PyError SampleOutput × Trace) (count : Nat)
    (syn_schema : Schema) : Except PyError DataFrame × Trace :=
  let (r, tr) := sampler count
  (r.map fun out => lib.assembleTS out count syn_schema, tr)

/-- FourierFlowsPlugin._generate (lines 179-243): delegates to
_safe_generate_time_series over the `_sample` closure.  The body contains no
assignment to self, so the plugin state passes through unchanged. -/
def FourierFlowsPlugin.generateImpl (lib : Library) (p : FourierFlowsPlugin)
    (count : Nat) (syn_schema : Schema) :
    FourierFlowsPlugin × Except PyError DataFrame × Trace :=
  let (r, tr) :=
    safeGenerateTimeSeries lib (FourierFlowsPlugin.sampleImpl lib p) count syn_schema
  (p, r, tr)

/-! ## TimeVAEPlugin (src/synthcity/plugins/time_series/plugin_timevae.py) -/

/-- Instance attributes of TimeVAEPlugin (constructor lines 90-151). -/
structure TimeVAEPlugin where
  n_iter : Nat
  lr : Val
  weight_decay : Val
  decoder_n_layers_hidden : Nat
  decoder_n_units_hidden : Nat
  decoder_nonlin : String
  decoder_nonlin_out_discrete : String
  decoder_nonlin_out_continuous : String
  decoder_batch_norm : Bool
  decoder_dropout : Val
  decoder_residual : Bool
  encoder_n_layers_hidden : Nat
  encoder_n_units_hidden : Nat
  encoder_nonlin : String
  encoder_batch_norm : Bool
  encoder_dropout : Val
  batch_size : Nat
  n_iter_print : Nat
  random_state : Nat
  clipping_value : Nat
  mode : String
  encoder_max_clusters : Nat
  encoder : Option Nat
  device : String
  gamma_penalty : Val
  moments_penalty : Val
  embedding_penalty : Val
  outcome_encoder : Option TabularEncoderState
  cov_model : Option CovModelState := none
  outcome_model : Option TimeSeriesModelState := none
  outcome_encoded_columns : Option (List String) := none
  data_info : Option DataInfo := none
deriving DecidableEq, Repr

/-- TimeVAEPlugin.__init__ (lines 90-151), arguments in source order: stores
every hyperparameter and creates the outcome TabularEncoder. -/
def TimeVAEPlugin.init (n_iter : Nat)
    (decoder_n_layers_hidden decoder_n_units_hidden : Nat)
    (decoder_nonlin decoder_nonlin_out_discrete decoder_nonlin_out_continuous : String)
    (decoder_batch_norm : Bool) (decoder_dropout : Val) (decoder_residual : Bool)
    (encoder_n_layers_hidden encoder_n_units_hidden : Nat)
    (encoder_nonlin : String) (encoder_batch_norm : Bool) (encoder_dropout : Val)
    (lr weight_decay : Val)
    (batch_size n_iter_print random_state clipping_value encoder_max_clusters : Nat)
    (encoder : Option Nat) (device : String) (mode : String)
    (gamma_penalty moments_penalty embedding_penalty : Val) : TimeVAEPlugin :=
  { n_iter := n_iter
    lr := lr
    weight_decay := weight_decay
    decoder_n_layers_hidden := decoder_n_layers_hidden
    decoder_n_units_hidden := decoder_n_units_hidden
    decoder_nonlin := decoder_nonlin
    decoder_nonlin_out_discrete := decoder_nonlin_out_discrete
    decoder_nonlin_out_continuous := decoder_nonlin_out_continuous
    decoder_batch_norm := decoder_batch_norm
    decoder_dropout := decoder_dropout
    decoder_residual := decoder_residual
    encoder_n_layers_hidden := encoder_n_layers_hidden
    encoder_n_units_hidden := encoder_n_units_hidden
    encoder_nonlin := encoder_nonlin
    encoder_batch_norm := encoder_batch_norm
    encoder_dropout := encoder_dropout
    batch_size := batch_size
    n_iter_print := n_iter_print
    random_state := random_state
    clipping_value := clipping_value
    mode := mode
    encoder_max_clusters := encoder_max_clusters
    encoder := encoder
    device := device
    gamma_penalty := gamma_penalty
    moments_penalty := moments_penalty
    embedding_penalty := embedding_penalty
    outcome_encoder := some { max_clusters := encoder_max_clusters } }

/-- TimeVAEPlugin.__init__ at its default arguments. -/
def TimeVAEPlugin.initDefault : TimeVAEPlugin :=
  TimeVAEPlugin.init 1000 2 150 "leaky_relu" "softmax" "tanh" false (1/100) true
    3 300 "leaky_relu" false (1/10) (1/1000) (1/1000) 64 10 0 0 20 none "cpu"
    "LSTM" 1 100 10

/-- TimeVAEPlugin.name (static method). -/
def TimeVAEPlugin.name : String := "timevae"

/-- TimeVAEPlugin.type (static method). -/
def TimeVAEPlugin.type : String := "time_series"

/-- TimeVAEPlugin.hyperparameter_space (lines 161-195); kwargs unused.  The
mode choice list is imported from the opaque ts_model library, so it is a
parameter here. -/
def TimeVAEPlugin.hyperparameter_space (modes : List String) (kwargs : KwArgs) :
    List Distribution :=
  [ .integerD "n_iter" 100 1000 100,
    .integerD "decoder_n_layers_hidden" 1 4 1,
    .integerD "decoder_n_units_hidden" 50 150 50,
    .categoricalD "decoder_nonlin" [.str "relu", .str "leaky_relu", .str "tanh", .str "elu"],
    .floatD "decoder_dropout" 0 (2/10),
    .integerD "encoder_n_layers_hidden" 1 4 1,
    .integerD "encoder_n_units_hidden" 50 150 50,
    .categoricalD "encoder_nonlin" [.str "relu", .str "leaky_relu", .str "tanh", .str "elu"],
    .integerD "encoder_n_iter" 1 5 1,
    .floatD "encoder_dropout" 0 (2/10),
    .categoricalD "lr" [.num (1/1000), .num (2/10000), .num (1/10000)],
    .categoricalD "weight_decay" [.num (1/1000), .num (1/10000)],
    .categoricalD "batch_size" [.num 100, .num 200, .num 500],
    .integerD "encoder_max_clusters" 2 20 1,
    .categoricalD "mode" (modes.map .str) ]

/-- The method calls a successful TimeVAEPlugin._fit performs, in source order
(lines 237, 240, 241, 264, 269). -/
def timevaeFitTrace : Trace :=
  [.covFit, .oeFit, .oeTransform, .oeActivationLayout, .tsmFit]

/-- The body of TimeVAEPlugin._fit after unpacking (lines 208-276). -/
def TimeVAEPlugin.fitBody (lib : Library) (p : TimeVAEPlugin)
    (static : DataFrame) (temporal : List DataFrame) (horizons : Horizons)
    (outcome : DataFrame) : TimeVAEPlugin × Except PyError Unit × Trace :=
  match p.outcome_encoder with
  | some oe0 =>
    -- self.cov_model = TimeSeriesTabularAutoEncoder(static_data=..., temporal_data=..., ...)
    let cm0 : CovModelState :=
      { static_columns := static.columns
        temporal_columns := ((temporal.head?.map DataFrame.columns).getD [])
        n_iter := p.n_iter
        lr := p.lr
        weight_decay := p.weight_decay
        decoder_n_layers_hidden := p.decoder_n_layers_hidden
        decoder_n_units_hidden := p.decoder_n_units_hidden
        decoder_nonlin := p.decoder_nonlin
        decoder_nonlin_out_discrete := p.decoder_nonlin_out_discrete
        decoder_nonlin_out_continuous := p.decoder_nonlin_out_continuous
        decoder_batch_norm := p.decoder_batch_norm
        decoder_dropout := p.decoder_dropout
        decoder_residual := p.decoder_residual
        encoder_n_layers_hidden := p.encoder_n_layers_hidden
        encoder_n_units_hidden := p.encoder_n_units_hidden
        encoder_nonlin := p.encoder_nonlin
        encoder_batch_norm := p.encoder_batch_norm
        encoder_dropout := p.encoder_dropout
        batch_size := p.batch_size
        n_iter_print := p.n_iter_print
        random_state := p.random_state
        clipping_value := p.clipping_value
        mode := p.mode
        encoder_max_clusters := p.encoder_max_clusters
        encoder := p.encoder
        device := p.device }
    let p := { p with cov_model := some cm0 }
    -- self.cov_model.fit(static, temporal, temporal_horizons)
    let cm := { cm0 with state := lib.covFit cm0 static temporal horizons }
    let p := { p with cov_model := some cm }
    -- self.outcome_encoder.fit(outcome)
    let oe := { oe0 with state := lib.tabFit oe0.max_clusters outcome }
    let p := { p with outcome_encoder := some oe }
    -- outcome_enc = self.outcome_encoder.transform(outcome)
    let outcome_enc := lib.tabTransform oe.state outcome
    -- self.outcome_encoded_columns = outcome_enc.columns
    let p := { p with outcome_encoded_columns := some outcome_enc.columns }
    match temporal with
    | [] =>
      -- temporal[0] inside the TimeSeriesModel constructor arguments (line 247)
      (p, .error .indexError, [.covFit, .oeFit, .oeTransform])
    | t0 :: _ =>
      -- self.outcome_model = TimeSeriesModel(...)
      let om0 : TimeSeriesModelState :=
        { task_type := "regression"
          n_static_units_in := static.columns.length
          n_temporal_units_in := t0.columns.length
          n_temporal_window := t0.rows.length
          output_shape := [outcome_enc.columns.length]
          n_static_units_hidden := some p.decoder_n_units_hidden
          n_static_layers_hidden := some p.decoder_n_layers_hidden
          n_temporal_units_hidden := some p.decoder_n_units_hidden
          n_temporal_layers_hidden := some p.decoder_n_layers_hidden
          n_iter := p.n_iter
          mode := some p.mode
          n_iter_print := some p.n_iter_print
          batch_size := p.batch_size
          lr := p.lr
          weight_decay := some p.weight_decay
          window_size := some 1
          device := p.device
          dropout := some p.decoder_dropout
          nonlin := some p.decoder_nonlin
          nonlin_out := lib.tabActivationLayout oe.state "softmax" "tanh" }
      -- self.outcome_model.fit(static, temporal, temporal_horizons, outcome_enc)
      let om := { om0 with
        state := lib.tsmFit om0 static.rows (temporal.map DataFrame.rows)
          horizons outcome_enc.rows }
      let p := { p with outcome_model := some om }
      (p, .ok (), timevaeFitTrace)
  | none => (p, .error .attributeError, [])

/-- TimeVAEPlugin._fit (lines 197-276): assertion, unpack, shared body. -/
def TimeVAEPlugin.fitImpl (lib : Library) (p : TimeVAEPlugin)
    (X : DataLoaderData) : TimeVAEPlugin × Except PyError Unit × Trace :=
  match X with
  | .survivalAnalysis _ => (p, .error .assertionError, [])
  | .timeSeries static temporal horizons outcome =>
      TimeVAEPlugin.fitBody lib p static temporal horizons outcome
  | .timeSeriesSurvival static temporal horizons T E =>
      let outcome : DataFrame :=
        { columns := ["time_to_event", "event"],
          rows := List.zipWith (fun a b => [a, b]) T E }
      TimeVAEPlugin.fitBody lib p static temporal horizons outcome

/-- The method calls the `_sample` closure of TimeVAEPlugin._generate performs,
in source order (lines 280, 283, 290); all return branches share this trace. -/
def timevaeSampleTrace : Trace :=
  [.covGenerate, .tsmPredict, .oeInverseTransform]

/-- The `_sample` closure of TimeVAEPlugin._generate (lines 279-307) with the
fitted attributes in hand. -/
def TimeVAEPlugin.sampleCore (lib : Library) (oe : TabularEncoderState)
    (cm : CovModelState) (om : TimeSeriesModelState) (oc : List String)
    (di : DataInfo) (count : Nat) : Except PyError SampleOutput :=
  -- static, temporal, temporal_horizons = self.cov_model.generate(count)
  let g := cm.generate lib count
  let static := g.1
  let temporal := g.2.1
  let temporal_horizons := g.2.2
  -- outcome_enc = pd.DataFrame(self.outcome_model.predict(...), columns=...)
  let outcome_enc : DataFrame :=
    { columns := oc,
      rows := lib.tsmPredict om.state static.rows (temporal.map DataFrame.rows)
        temporal_horizons }
  -- outcome = pd.DataFrame(self.outcome_encoder.inverse_transform(outcome_enc), ...)
  let outcome : DataFrame :=
    { columns := di.outcome_features, rows := lib.tabInverse oe.state outcome_enc }
  if di.data_type = "time_series" then
    .ok (.ts static temporal temporal_horizons outcome)
  else if di.data_type = "time_series_survival" then
    survivalBranch static temporal temporal_horizons outcome di
  else
    .error (.runtimeError "unknow data type")

/-- The `_sample` closure as invoked on a TimeVAEPlugin instance. -/
def TimeVAEPlugin.sampleImpl (lib : Library) (p : TimeVAEPlugin) (count : Nat) :
    Except PyError SampleOutput × Trace :=
  match p.outcome_encoder, p.cov_model, p.outcome_model,
      p.outcome_encoded_columns, p.data_info with
  | some oe, some cm, some om, some oc, some di =>
      (TimeVAEPlugin.sampleCore lib oe cm om oc di count, timevaeSampleTrace)
  | _, _, _, _, _ => (.error .attributeError, [])

/-- TimeVAEPlugin._generate (lines 278-309); no assignment to self. -/
def TimeVAEPlugin.generateImpl (lib : Library) (p : TimeVAEPlugin)
    (count : Nat) (syn_schema : Schema) :
    TimeVAEPlugin × Except PyError DataFrame × Trace :=
  let (r, tr) :=
    safeGenerateTimeSeries lib (TimeVAEPlugin.sampleImpl lib p) count syn_schema
  (p, r, tr)

/-! ## SurVAEPlugin (src/synthcity/plugins/survival_analysis/plugin_survae.py) -/

/-- Instance attributes of SurVAEPlugin. -/
structure SurVAEPlugin where
  tte_strategy : String
  censoring_strategy : String
  uncensoring_model : String
  device : String
  kwargs : KwArgs
  model : Option SurvivalPipelineState := none
  data_info : Option DataInfo := none
deriving DecidableEq, Repr

/-- The sampling strategies SurVAEPlugin.__init__ accepts (lines 49-53). -/
def validSamplingStrategies : List String :=
  ["none", "imbalanced_censoring", "imbalanced_time_censoring"]

/-- SurVAEPlugin.__init__ (lines 37-71): raises ValueError when the
dataloader sampling strategy is not supported, otherwise stores the remaining
arguments; the trailing log.info call has no effect on state. -/
def SurVAEPlugin.init (uncensoring_model dataloader_sampling_strategy
    tte_strategy censoring_strategy device : String) (kwargs : KwArgs) :
    Except PyError SurVAEPlugin :=
  if dataloader_sampling_strategy ∈ validSamplingStrategies then
    .ok { tte_strategy := tte_strategy
          censoring_strategy := censoring_strategy
          uncensoring_model := uncensoring_model
          device := device
          kwargs := kwargs }
  else
    .error (.valueError
      ("Invalid sampling strategy " ++ dataloader_sampling_strategy))

/-- SurVAEPlugin.name (static method). -/
def SurVAEPlugin.name : String := "survae"

/-- SurVAEPlugin.type (static method). -/
def SurVAEPlugin.type : String := "survival_analysis"

/-- SurVAEPlugin.hyperparameter_space (lines 81-83): it returns the tvae
plugin's hyperparameter space, called with no arguments; the incoming kwargs
are dropped.  The tvae plugin is not under src/, so its space is the opaque
library function. -/
def SurVAEPlugin.hyperparameter_space (lib : Library) (kwargs : KwArgs) :
    List Distribution :=
  lib.tvaeHyperparameterSpace []

/-- The spec's reading of SurVAEPlugin.hyperparameter_space for the
refinement claim: the declared search space is exactly the tvae plugin's
space for the same kwargs. -/
def survaeHyperparameterSpaceSpec (lib : Library) (kwargs : KwArgs) :
    List Distribution :=
  lib.tvaeHyperparameterSpace kwargs

/-- SurVAEPlugin._fit (lines 85-98): asserts the loader type, builds the
SurvivalPipeline around tvae and fits it. -/
def SurVAEPlugin.fitImpl (lib : Library) (p : SurVAEPlugin)
    (X : DataLoaderData) : SurVAEPlugin × Except PyError Unit × Trace :=
  match X with
  | .survivalAnalysis data =>
      -- self.model = SurvivalPipeline("tvae", strategy=..., ...)
      let m0 : SurvivalPipelineState :=
        { model_name := "tvae"
          strategy := p.tte_strategy
          uncensoring_model := p.uncensoring_model
          censoring_strategy := p.censoring_strategy
          device := p.device
          kwargs := p.kwargs }
      let p := { p with model := some m0 }
      -- self.model.fit(X, **kwargs)
      let m := { m0 with state := lib.spFit m0 data }
      let p := { p with model := some m }
      (p, .ok (), [.spFit])
  | _ => (p, .error .assertionError, [])

/-- SurVAEPlugin._generate (lines 100-105): delegates to the fitted
pipeline's _generate; no assignment to self. -/
def SurVAEPlugin.generateImpl (lib : Library) (p : SurVAEPlugin) (count : Nat)
    (syn_schema : Schema) : SurVAEPlugin × Except PyError DataFrame × Trace :=
  match p.model with
  | some m => (p, .ok (lib.spGenerate m.state count syn_schema), [.spGenerate])
  | none => (p, .error .attributeError, [])

/-! ## Predicates used by the claims, and concrete instances -/

/-- Run a Bool check on the payload of an ok result; an error returns no
frames, so there is nothing to check. -/
def okCheck (f : SampleOutput → Bool) : Except PyError SampleOutput → Bool
  | .ok out => f out
  | .error _ => true

/-- The static frame of a sampler output. -/
def SampleOutput.staticPart : SampleOutput → DataFrame
  | .ts s _ _ _ => s
  | .tss s _ _ _ _ => s

/-- The per-sample temporal frames of a sampler output. -/
def SampleOutput.temporalPart : SampleOutput → List DataFrame
  | .ts _ t _ _ => t
  | .tss _ t _ _ _ => t

/-- The per-sample horizons of a sampler output. -/
def SampleOutput.horizonsPart : SampleOutput → Horizons
  | .ts _ _ h _ => h
  | .tss _ _ h _ _ => h

/-- The column claim of C2: the static frame carries data_info's
static_features, every temporal frame carries temporal_features, and (in the
time_series branch, where an outcome frame is returned) the outcome frame
carries outcome_features — each in the original order. -/
def SampleOutput.columnsMirror (out : SampleOutput) (di : DataInfo) : Bool :=
  match out with
  | .ts s t _ o =>
      (s.columns == di.static_features) &&
      t.all (fun f => f.columns == di.temporal_features) &&
      (o.columns == di.outcome_features)
  | .tss s t _ _ _ =>
      (s.columns == di.static_features) &&
      t.all (fun f => f.columns == di.temporal_features)

/-- A concrete instantiation of the opaque library behaviours, used to
evaluate the development on explicit inputs. -/
def trivLib : Library :=
  { teFit := fun _ _ _ => 1
    teTransform := fun _ t h => (t, h)
    teDecodeSample := fun _ df => df.rows
    teDecodeHorizon := fun _ h => h
    tabFit := fun _ _ => 1
    tabTransform := fun _ df => df
    tabInverse := fun _ df => df.rows
    tabActivationLayout := fun _ _ _ => [("tanh", 1)]
    genericFit := fun _ _ => 1
    genericGenerate := fun _ count => List.replicate count [1, 2]
    ffFit := fun _ _ _ => 1
    ffSample := fun _ count => List.replicate count [[3]]
    tsmFit := fun _ _ _ _ _ => 1
    tsmPredict := fun _ static _ _ => static.map fun _ => [4]
    covFit := fun _ _ _ _ => 1
    covGenerate := fun _ count =>
      (List.replicate count [5], List.replicate count [[6]], List.replicate count [0])
    spFit := fun _ _ => 1
    spGenerate := fun _ _ _ => { columns := [], rows := [] }
    assembleTS := fun _ _ _ => { columns := [], rows := [] }
    tvaeHyperparameterSpace := fun _ => [] }

/-- A one-sample time-series training loader. -/
def Xex : DataLoaderData :=
  .timeSeries { columns := ["s0"], rows := [[1]] }
    [{ columns := ["t0"], rows := [[2]] }] [[0]]
    { columns := ["o0"], rows := [[3]] }

/-- A one-row survival-analysis loader. -/
def XsurvEx : DataLoaderData :=
  .survivalAnalysis { columns := ["week", "arrest"], rows := [[1, 0]] }

/-- The data_info the base-class fit records for Xex. -/
def diEx : DataInfo :=
  { data_type := "time_series", static_features := ["s0"],
    temporal_features := ["t0"], outcome_features := ["o0"],
    time_to_event_column := "time_to_event", event_column := "event" }

/-- A fitted fflows plugin: default construction, fitted on Xex, with the
data_info the base-class fit records alongside. -/
def ffEx : FourierFlowsPlugin :=
  { (FourierFlowsPlugin.fitImpl trivLib FourierFlowsPlugin.initDefault Xex).1 with
    data_info := some diEx }

/-- A fitted timevae plugin on the same data. -/
def tvEx : TimeVAEPlugin :=
  { (TimeVAEPlugin.fitImpl trivLib TimeVAEPlugin.initDefault Xex).1 with
    data_info := some diEx }

/-- A survae plugin as constructed with its default arguments. -/
def svEx : SurVAEPlugin :=
  { tte_strategy := "survival_function", censoring_strategy := "random",
    uncensoring_model := "survival_function_regression", device := "cpu",
    kwargs := [] }

/-- The survae plugin after _fit on the survival loader. -/
def svFitEx : SurVAEPlugin := (SurVAEPlugin.fitImpl trivLib svEx XsurvEx).1

/-- The covariate model the fitted timevae example holds. -/
def cmEx : CovModelState :=
  tvEx.cov_model.getD
    { static_columns := [], temporal_columns := [], n_iter := 0, lr := 0,
      weight_decay := 0, decoder_n_layers_hidden := 0,
      decoder_n_units_hidden := 0, decoder_nonlin := "",
      decoder_nonlin_out_discrete := "", decoder_nonlin_out_continuous := "",
      decoder_batch_norm := false, decoder_dropout := 0,
      decoder_residual := false, encoder_n_layers_hidden := 0,
      encoder_n_units_hidden := 0, encoder_nonlin := "",
      encoder_batch_norm := false, encoder_dropout := 0, batch_size := 0,
      n_iter_print := 0, random_state := 0, clipping_value := 0, mode := "",
      encoder_max_clusters := 0, encoder := none, device := "" }

/-- The fitted components the fflows example holds, extracted for use as
explicit theorem inputs. -/
def teEx : TimeSeriesTabularEncoderState :=
  ffEx.temporal_encoder.getD { max_clusters := 0 }

/-- The fitted outcome encoder of the fflows example. -/
def oeEx : TabularEncoderState := ffEx.outcome_encoder.getD { max_clusters := 0 }

/-- The fitted static model of the fflows example. -/
def smEx : GenericModelState := ffEx.static_model.getD { name := "", device := "" }

/-- The fitted temporal model of the fflows example. -/
def tmEx : FourierFlowState :=
  ffEx.temporal_model.getD
    { hidden := 0, n_flows := 0, FFT := false, flip := false, normalize := false,
      device := "" }

/-- The fitted outcome model of the fflows example. -/
def omEx : TimeSeriesModelState :=
  ffEx.outcome_model.getD
    { task_type := "", n_static_units_in := 0, n_temporal_units_in := 0,
      n_temporal_window := 0, output_shape := [], n_iter := 0, batch_size := 0,
      lr := 0, device := "", nonlin_out := [] }

/-- The learned static column list of the fflows example. -/
def scEx : List String := ffEx.static_columns.getD []

/-- The learned encoded temporal column list of the fflows example. -/
def tcEx : List String := ffEx.temporal_encoded_columns.getD []

/-- The learned encoded outcome column list of the fflows example. -/
def ocEx : List String := ffEx.outcome_encoded_columns.getD []

/-! ## Helper lemmas shared by the claim theorems -/

/-- Reindexing sets exactly the requested columns. -/
theorem DataFrame.reindex_columns (df : DataFrame) (cols : List String) :
    (df.reindex cols).columns = cols := rfl

/-- Every call in the fflows sampler trace is read-only. -/
theorem ffSample_trace_readOnly (lib : Library) (p : FourierFlowsPlugin)
    (count : Nat) :
    ((FourierFlowsPlugin.sampleImpl lib p count).2.all MethodCall.readOnly) = true := by
  unfold FourierFlowsPlugin.sampleImpl
  split <;> rfl

/-- Every call in the timevae sampler trace is read-only. -/
theorem tvSample_trace_readOnly (lib : Library) (p : TimeVAEPlugin)
    (count : Nat) :
    ((TimeVAEPlugin.sampleImpl lib p count).2.all MethodCall.readOnly) = true := by
  unfold TimeVAEPlugin.sampleImpl
  split <;> rfl

/-- Every call in the survae _generate trace is read-only. -/
theorem svGenerate_trace_readOnly (lib : Library) (p : SurVAEPlugin)
    (count : Nat) (sch : Schema) :
    ((SurVAEPlugin.generateImpl lib p count sch).2.2.all MethodCall.readOnly) = true := by
  unfold SurVAEPlugin.generateImpl
  split <;> rfl

/-- When the shared body of FourierFlowsPlugin._fit succeeds it has performed
exactly the calls of fflowsFitTrace, and the resulting instance holds every
encoder, sub-model and learned column list. -/
theorem ffFitBody_ok_shape (lib : Library) (p : FourierFlowsPlugin)
    (static : DataFrame) (temporal : List DataFrame) (horizons : Horizons)
    (outcome : DataFrame)
    (h : exceptIsOk
      (FourierFlowsPlugin.fitBody lib p static temporal horizons outcome).2.1 = true) :
    (FourierFlowsPlugin.fitBody lib p static temporal horizons outcome).2.2 =
      fflowsFitTrace ∧
    (FourierFlowsPlugin.fitBody lib p static temporal horizons outcome).1.temporal_encoder.isSome = true ∧
    (FourierFlowsPlugin.fitBody lib p static temporal horizons outcome).1.outcome_encoder.isSome = true ∧
    (FourierFlowsPlugin.fitBody lib p static temporal horizons outcome).1.static_model.isSome = true ∧
    (FourierFlowsPlugin.fitBody lib p static temporal horizons outcome).1.temporal_model.isSome = true ∧
    (FourierFlowsPlugin.fitBody lib p static temporal horizons outcome).1.outcome_model.isSome = true ∧
    (FourierFlowsPlugin.fitBody lib p static temporal horizons outcome).1.temporal_encoded_columns.isSome = true ∧
    (FourierFlowsPlugin.fitBody lib p static temporal horizons outcome).1.outcome_encoded_columns.isSome = true ∧
    (FourierFlowsPlugin.fitBody lib p static temporal horizons outcome).1.static_columns.isSome = true := by
  rcases hte : p.temporal_encoder with _ | te0
  · simp [FourierFlowsPlugin.fitBody, hte, exceptIsOk] at h
  rcases hsm : p.static_model with _ | sm0
  · simp [FourierFlowsPlugin.fitBody, hte, hsm, exceptIsOk] at h
  rcases htm : p.temporal_model with _ | tm0
  · simp [FourierFlowsPlugin.fitBody, hte, hsm, htm, exceptIsOk] at h
  rcases hoe : p.outcome_encoder with _ | oe0
  · simp [FourierFlowsPlugin.fitBody, hte, hsm, htm, hoe, exceptIsOk] at h
  by_cases hlen : static.rows.length = horizons.length
  case neg =>
    simp [FourierFlowsPlugin.fitBody, hte, hsm, htm, hoe, hlen, exceptIsOk] at h
  case pos =>
    rcases temporal with _ | ⟨t0, trest⟩
    · simp [FourierFlowsPlugin.fitBody, hte, hsm, htm, hoe, hlen, exceptIsOk] at h
    · rcases htenc : (lib.teTransform
          (lib.teFit te0.max_clusters (t0 :: trest) horizons)
          (t0 :: trest) horizons).1 with _ | ⟨e0, erest⟩
      · simp [FourierFlowsPlugin.fitBody, hte, hsm, htm, hoe, hlen, htenc,
          exceptIsOk] at h
      · simp [FourierFlowsPlugin.fitBody, hte, hsm, htm, hoe, hlen, htenc,
          exceptIsOk]

/-- Lift of ffFitBody_ok_shape through the unpack step of _fit. -/
theorem ffFit_ok_shape (lib : Library) (p : FourierFlowsPlugin)
    (X : DataLoaderData)
    (h : exceptIsOk (FourierFlowsPlugin.fitImpl lib p X).2.1 = true) :
    (FourierFlowsPlugin.fitImpl lib p X).2.2 = fflowsFitTrace ∧
    (FourierFlowsPlugin.fitImpl lib p X).1.temporal_encoder.isSome = true ∧
    (FourierFlowsPlugin.fitImpl lib p X).1.outcome_encoder.isSome = true ∧
    (FourierFlowsPlugin.fitImpl lib p X).1.static_model.isSome = true ∧
    (FourierFlowsPlugin.fitImpl lib p X).1.temporal_model.isSome = true ∧
    (FourierFlowsPlugin.fitImpl lib p X).1.outcome_model.isSome = true ∧
    (FourierFlowsPlugin.fitImpl lib p X).1.temporal_encoded_columns.isSome = true ∧
    (FourierFlowsPlugin.fitImpl lib p X).1.outcome_encoded_columns.isSome = true ∧
    (FourierFlowsPlugin.fitImpl lib p X).1.static_columns.isSome = true := by
  rcases X with ⟨static, temporal, horizons, outcome⟩ |
    ⟨static, temporal, horizons, T, E⟩ | ⟨d⟩
  · exact ffFitBody_ok_shape lib p static temporal horizons outcome h
  · exact ffFitBody_ok_shape lib p static temporal horizons _ h
  · simp [FourierFlowsPlugin.fitImpl, exceptIsOk] at h

/-- When the shared body of TimeVAEPlugin._fit succeeds it has performed
exactly the calls of timevaeFitTrace, and the resulting instance holds the
outcome encoder, both sub-models and the learned outcome columns. -/
theorem tvFitBody_ok_shape (lib : Library) (p : TimeVAEPlugin)
    (static : DataFrame) (temporal : List DataFrame) (horizons : Horizons)
    (outcome : DataFrame)
    (h : exceptIsOk
      (TimeVAEPlugin.fitBody lib p static temporal horizons outcome).2.1 = true) :
    (TimeVAEPlugin.fitBody lib p static temporal horizons outcome).2.2 =
      timevaeFitTrace ∧
    (TimeVAEPlugin.fitBody lib p static temporal horizons outcome).1.outcome_encoder.isSome = true ∧
    (TimeVAEPlugin.fitBody lib p static temporal horizons outcome).1.cov_model.isSome = true ∧
    (TimeVAEPlugin.fitBody lib p static temporal horizons outcome).1.outcome_model.isSome = true ∧
    (TimeVAEPlugin.fitBody lib p static temporal horizons outcome).1.outcome_encoded_columns.isSome = true := by
  rcases hoe : p.outcome_encoder with _ | oe0
  · simp [TimeVAEPlugin.fitBody, hoe, exceptIsOk] at h
  rcases temporal with _ | ⟨t0, trest⟩
  · simp [TimeVAEPlugin.fitBody, hoe, exceptIsOk] at h
  · simp [TimeVAEPlugin.fitBody, hoe, exceptIsOk]

/-- Lift of tvFitBody_ok_shape through the unpack step of _fit. -/
theorem tvFit_ok_shape (lib : Library) (p : TimeVAEPlugin) (X : DataLoaderData)
    (h : exceptIsOk (TimeVAEPlugin.fitImpl lib p X).2.1 = true) :
    (TimeVAEPlugin.fitImpl lib p X).2.2 = timevaeFitTrace ∧
    (TimeVAEPlugin.fitImpl lib p X).1.outcome_encoder.isSome = true ∧
    (TimeVAEPlugin.fitImpl lib p X).1.cov_model.isSome = true ∧
    (TimeVAEPlugin.fitImpl lib p X).1.outcome_model.isSome = true ∧
    (TimeVAEPlugin.fitImpl lib p X).1.outcome_encoded_columns.isSome = true := by
  rcases X with ⟨static, temporal, horizons, outcome⟩ |
    ⟨static, temporal, horizons, T, E⟩ | ⟨d⟩
  · exact tvFitBody_ok_shape lib p static temporal horizons outcome h
  · exact tvFitBody_ok_shape lib p static temporal horizons _ h
  · simp [TimeVAEPlugin.fitImpl, exceptIsOk] at h

/-- When SurVAEPlugin._fit succeeds it has fitted the survival pipeline and
stored it. -/
theorem svFit_ok_shape (lib : Library) (p : SurVAEPlugin) (X : DataLoaderData)
    (h : exceptIsOk (SurVAEPlugin.fitImpl lib p X).2.1 = true) :
    (SurVAEPlugin.fitImpl lib p X).2.2 = [MethodCall.spFit] ∧
    (SurVAEPlugin.fitImpl lib p X).1.model.isSome = true := by
  rcases X with ⟨static, temporal, horizons, outcome⟩ |
    ⟨static, temporal, horizons, T, E⟩ | ⟨d⟩ <;>
    simp_all [SurVAEPlugin.fitImpl, exceptIsOk]

/-- When the fflows sampler does not raise AttributeError it performs exactly
the calls of fflowsSampleTrace. -/
theorem ffSample_ok_trace (lib : Library) (p : FourierFlowsPlugin) (count : Nat)
    (h : exceptIsOk (FourierFlowsPlugin.sampleImpl lib p count).1 = true) :
    (FourierFlowsPlugin.sampleImpl lib p count).2 = fflowsSampleTrace := by
  rcases he : FourierFlowsPlugin.sampleImpl lib p count with ⟨r, tr⟩
  rw [he] at h
  unfold FourierFlowsPlugin.sampleImpl at he
  split at he <;>
    (simp only [Prod.mk.injEq] at he
     obtain ⟨hr, htr⟩ := he
     subst htr
     rw [← hr] at h) <;>
    simp_all [exceptIsOk]

/-- When the timevae sampler does not raise AttributeError it performs exactly
the calls of timevaeSampleTrace. -/
theorem tvSample_ok_trace (lib : Library) (p : TimeVAEPlugin) (count : Nat)
    (h : exceptIsOk (TimeVAEPlugin.sampleImpl lib p count).1 = true) :
    (TimeVAEPlugin.sampleImpl lib p count).2 = timevaeSampleTrace := by
  rcases he : TimeVAEPlugin.sampleImpl lib p count with ⟨r, tr⟩
  rw [he] at h
  unfold TimeVAEPlugin.sampleImpl at he
  split at he <;>
    (simp only [Prod.mk.injEq] at he
     obtain ⟨hr, htr⟩ := he
     subst htr
     rw [← hr] at h) <;>
    simp_all [exceptIsOk]

/-! ## Claim theorems -/

/-- Claim C1: for every fitted plugin (fflows, timevae, survae) and every
count, _generate leaves the plugin state — in particular the encoders fitted
during training — unchanged, and every method it invokes on the encoders and
the fitted sub-models is read-only (transform / inverse_transform /
inverse_transform_temporal, predict, generate / sample); no encoder attribute
is re-fitted or reassigned between the end of _fit and the end of _generate. -/
theorem generate_is_readonly_frame :
    (∀ (lib : Library) (p : FourierFlowsPlugin) (count : Nat) (sch : Schema),
      (FourierFlowsPlugin.generateImpl lib p count sch).1 = p ∧
      ((FourierFlowsPlugin.generateImpl lib p count sch).2.2.all
        MethodCall.readOnly) = true) ∧
    (∀ (lib : Library) (p : TimeVAEPlugin) (count : Nat) (sch : Schema),
      (TimeVAEPlugin.generateImpl lib p count sch).1 = p ∧
      ((TimeVAEPlugin.generateImpl lib p count sch).2.2.all
        MethodCall.readOnly) = true) ∧
    (∀ (lib : Library) (p : SurVAEPlugin) (count : Nat) (sch : Schema),
      (SurVAEPlugin.generateImpl lib p count sch).1 = p ∧
      ((SurVAEPlugin.generateImpl lib p count sch).2.2.all
        MethodCall.readOnly) = true) := by
  refine ⟨fun lib p count sch => ?_, fun lib p count sch => ?_,
    fun lib p count sch => ?_⟩
  · unfold FourierFlowsPlugin.generateImpl safeGenerateTimeSeries
    rcases hs : FourierFlowsPlugin.sampleImpl lib p count with ⟨r, tr⟩
    refine ⟨rfl, ?_⟩
    have hro := ffSample_trace_readOnly lib p count
    rw [hs] at hro
    exact hro
  · unfold TimeVAEPlugin.generateImpl safeGenerateTimeSeries
    rcases hs : TimeVAEPlugin.sampleImpl lib p count with ⟨r, tr⟩
    refine ⟨rfl, ?_⟩
    have hro := tvSample_trace_readOnly lib p count
    rw [hs] at hro
    exact hro
  · unfold SurVAEPlugin.generateImpl
    rcases hm : p.model with _ | m <;> simp [MethodCall.readOnly]

/-- The survival return branch satisfies any output check that holds of every
tss tuple built from its static/temporal/horizons arguments. -/
theorem survivalBranch_okCheck (f : SampleOutput → Bool) (static : DataFrame)
    (temporal : List DataFrame) (horizons : Horizons) (outcome : DataFrame)
    (di : DataInfo)
    (hf : ∀ T E, f (SampleOutput.tss static temporal horizons T E) = true) :
    okCheck f (survivalBranch static temporal horizons outcome di) = true := by
  unfold survivalBranch
  split
  · rfl
  split
  · rfl
  · exact hf _ _

/-- Every frame the fflows sampler body builds for its return value carries
the data_info column lists. -/
theorem ffSampleCore_columns (lib : Library) (te : TimeSeriesTabularEncoderState)
    (oe : TabularEncoderState) (sm : GenericModelState) (tm : FourierFlowState)
    (om : TimeSeriesModelState) (sc tc oc : List String) (di : DataInfo)
    (count : Nat) :
    okCheck (fun o => o.columnsMirror di)
      (FourierFlowsPlugin.sampleCore lib te oe sm tm om sc tc oc di count) = true := by
  unfold FourierFlowsPlugin.sampleCore
  split_ifs with h1 h2
  · simp [okCheck, SampleOutput.columnsMirror, DataFrame.reindex, List.all_map]
  · refine survivalBranch_okCheck _ _ _ _ _ _ fun T E => ?_
    simp [SampleOutput.columnsMirror, DataFrame.reindex, List.all_map]
  · rfl

/-- Every frame the timevae sampler body returns carries the data_info column
lists, provided the covariate model was fitted on the schema data_info
records. -/
theorem tvSampleCore_columns (lib : Library) (oe : TabularEncoderState)
    (cm : CovModelState) (om : TimeSeriesModelState) (oc : List String)
    (di : DataInfo) (count : Nat)
    (hs : cm.static_columns = di.static_features)
    (ht : cm.temporal_columns = di.temporal_features) :
    okCheck (fun o => o.columnsMirror di)
      (TimeVAEPlugin.sampleCore lib oe cm om oc di count) = true := by
  rcases hg : lib.covGenerate cm.state count with ⟨sRaw, tRaw, hors⟩
  unfold TimeVAEPlugin.sampleCore CovModelState.generate
  rw [hg]
  split_ifs with h1 h2
  · simp [okCheck, SampleOutput.columnsMirror, hs, ht, List.all_map]
  · refine survivalBranch_okCheck _ _ _ _ _ _ fun T E => ?_
    simp [SampleOutput.columnsMirror, hs, ht, List.all_map]
  · rfl

/-- Attribute-level lift of ffSampleCore_columns. -/
theorem ffSample_columns (lib : Library) (p : FourierFlowsPlugin) (count : Nat)
    (di : DataInfo) (hdi : p.data_info = some di) :
    okCheck (fun o => o.columnsMirror di)
      (FourierFlowsPlugin.sampleImpl lib p count).1 = true := by
  rcases hte : p.temporal_encoder with _ | te
  · simp [FourierFlowsPlugin.sampleImpl, hte, okCheck]
  rcases hoe : p.outcome_encoder with _ | oe
  · simp [FourierFlowsPlugin.sampleImpl, hte, hoe, okCheck]
  rcases hsm : p.static_model with _ | sm
  · simp [FourierFlowsPlugin.sampleImpl, hte, hoe, hsm, okCheck]
  rcases htm : p.temporal_model with _ | tm
  · simp [FourierFlowsPlugin.sampleImpl, hte, hoe, hsm, htm, okCheck]
  rcases hom : p.outcome_model with _ | om
  · simp [FourierFlowsPlugin.sampleImpl, hte, hoe, hsm, htm, hom, okCheck]
  rcases hsc : p.static_columns with _ | sc
  · simp [FourierFlowsPlugin.sampleImpl, hte, hoe, hsm, htm, hom, hsc, okCheck]
  rcases htc : p.temporal_encoded_columns with _ | tc
  · simp [FourierFlowsPlugin.sampleImpl, hte, hoe, hsm, htm, hom, hsc, htc, okCheck]
  rcases hoc : p.outcome_encoded_columns with _ | oc
  · simp [FourierFlowsPlugin.sampleImpl, hte, hoe, hsm, htm, hom, hsc, htc, hoc,
      okCheck]
  simp [FourierFlowsPlugin.sampleImpl, hte, hoe, hsm, htm, hom, hsc, htc, hoc,
    hdi, ffSampleCore_columns]

/-- Attribute-level lift of tvSampleCore_columns. -/
theorem tvSample_columns (lib : Library) (p : TimeVAEPlugin) (count : Nat)
    (di : DataInfo) (cm : CovModelState) (hdi : p.data_info = some di)
    (hcm : p.cov_model = some cm)
    (hs : cm.static_columns = di.static_features)
    (ht : cm.temporal_columns = di.temporal_features) :
    okCheck (fun o => o.columnsMirror di)
      (TimeVAEPlugin.sampleImpl lib p count).1 = true := by
  rcases hoe : p.outcome_encoder with _ | oe
  · simp [TimeVAEPlugin.sampleImpl, hoe, okCheck]
  rcases hom : p.outcome_model with _ | om
  · simp [TimeVAEPlugin.sampleImpl, hoe, hcm, hom, okCheck]
  rcases hoc : p.outcome_encoded_columns with _ | oc
  · simp [TimeVAEPlugin.sampleImpl, hoe, hcm, hom, hoc, okCheck]
  simp [TimeVAEPlugin.sampleImpl, hoe, hcm, hom, hoc, hdi]
  exact tvSampleCore_columns lib oe cm om oc di count hs ht

/-- Claim C2: for every fitted time-series plugin (fflows, timevae) and every
count, the frames returned by the generation sampler carry exactly the column
names of the original input schema, in the original order: the static frame
has columns data_info static_features, each per-sample temporal frame has
columns data_info temporal_features, and the outcome frame has columns
data_info outcome_features.  For timevae the static/temporal frames come from
the spec-modelled covariate autoencoder, so the theorem assumes that model was
constructed on the schema data_info records. -/
theorem sampler_columns_mirror_input_schema :
    (∀ (lib : Library) (p : FourierFlowsPlugin) (count : Nat) (di : DataInfo),
      p.data_info = some di →
      okCheck (fun o => o.columnsMirror di)
        (FourierFlowsPlugin.sampleImpl lib p count).1 = true) ∧
    (∀ (lib : Library) (p : TimeVAEPlugin) (count : Nat) (di : DataInfo)
      (cm : CovModelState), p.data_info = some di → p.cov_model = some cm →
      cm.static_columns = di.static_features →
      cm.temporal_columns = di.temporal_features →
      okCheck (fun o => o.columnsMirror di)
        (TimeVAEPlugin.sampleImpl lib p count).1 = true) :=
  ⟨fun lib p count di hdi => ffSample_columns lib p count di hdi,
   fun lib p count di cm hdi hcm hs ht =>
     tvSample_columns lib p count di cm hdi hcm hs ht⟩

/-- Witness for C2 at the concrete fitted plugins: the hypotheses hold and the
column check evaluates to true on an explicit generation. -/
theorem sampler_columns_mirror_witness :
    (ffEx.data_info = some diEx ∧ tvEx.data_info = some diEx ∧
      tvEx.cov_model = some cmEx ∧ cmEx.static_columns = diEx.static_features ∧
      cmEx.temporal_columns = diEx.temporal_features) ∧
    okCheck (fun o => o.columnsMirror diEx)
      (FourierFlowsPlugin.sampleImpl trivLib ffEx 1).1 = true ∧
    okCheck (fun o => o.columnsMirror diEx)
      (TimeVAEPlugin.sampleImpl trivLib tvEx 1).1 = true :=
  ⟨⟨rfl, rfl, rfl, rfl, rfl⟩,
   sampler_columns_mirror_input_schema.1 trivLib ffEx 1 diEx rfl,
   sampler_columns_mirror_input_schema.2 trivLib tvEx 1 diEx cmEx rfl
     rfl rfl rfl⟩

/-- Counterexample to C3 as stated: on an explicit successful fit, timevae
trains exactly two sub-models — the joint static+temporal autoencoder and the
outcome predictor — not three. -/
theorem timevae_composes_two_submodels :
    (TimeVAEPlugin.fitImpl trivLib TimeVAEPlugin.initDefault Xex).2.1 =
      Except.ok () ∧
    subModelFitsIn
      (TimeVAEPlugin.fitImpl trivLib TimeVAEPlugin.initDefault Xex).2.2 =
      [MethodCall.covFit, MethodCall.tsmFit] ∧
    (subModelFitsIn
      (TimeVAEPlugin.fitImpl trivLib TimeVAEPlugin.initDefault Xex).2.2).length ≠ 3 :=
  ⟨rfl, rfl, by decide⟩

/-- Claim C3 (amended): fflows composes three sub-models behind the single
fit/generate contract — a static-feature generator, a temporal-sequence
generator and an outcome predictor, each fitted during _fit and each drawn
from during _generate; timevae instead composes two sub-models (a joint
static+temporal autoencoder and an outcome predictor), and survae delegates
to one survival pipeline. -/
theorem submodel_composition_of_each_plugin :
    (∀ (lib : Library) (p : FourierFlowsPlugin) (X : DataLoaderData),
      exceptIsOk (FourierFlowsPlugin.fitImpl lib p X).2.1 = true →
      subModelFitsIn (FourierFlowsPlugin.fitImpl lib p X).2.2 =
        [MethodCall.staticFit, MethodCall.ffFit, MethodCall.tsmFit] ∧
      (FourierFlowsPlugin.fitImpl lib p X).1.static_model.isSome = true ∧
      (FourierFlowsPlugin.fitImpl lib p X).1.temporal_model.isSome = true ∧
      (FourierFlowsPlugin.fitImpl lib p X).1.outcome_model.isSome = true) ∧
    (∀ (lib : Library) (p : FourierFlowsPlugin) (count : Nat),
      exceptIsOk (FourierFlowsPlugin.sampleImpl lib p count).1 = true →
      subModelDrawsIn (FourierFlowsPlugin.sampleImpl lib p count).2 =
        [MethodCall.staticGenerate, MethodCall.ffSample, MethodCall.tsmPredict]) ∧
    (∀ (lib : Library) (p : TimeVAEPlugin) (X : DataLoaderData),
      exceptIsOk (TimeVAEPlugin.fitImpl lib p X).2.1 = true →
      subModelFitsIn (TimeVAEPlugin.fitImpl lib p X).2.2 =
        [MethodCall.covFit, MethodCall.tsmFit] ∧
      (TimeVAEPlugin.fitImpl lib p X).1.cov_model.isSome = true ∧
      (TimeVAEPlugin.fitImpl lib p X).1.outcome_model.isSome = true) ∧
    (∀ (lib : Library) (p : TimeVAEPlugin) (count : Nat),
      exceptIsOk (TimeVAEPlugin.sampleImpl lib p count).1 = true →
      subModelDrawsIn (TimeVAEPlugin.sampleImpl lib p count).2 =
        [MethodCall.covGenerate, MethodCall.tsmPredict]) ∧
    (∀ (lib : Library) (p : SurVAEPlugin) (X : DataLoaderData),
      exceptIsOk (SurVAEPlugin.fitImpl lib p X).2.1 = true →
      subModelFitsIn (SurVAEPlugin.fitImpl lib p X).2.2 = [MethodCall.spFit] ∧
      (SurVAEPlugin.fitImpl lib p X).1.model.isSome = true) := by
  refine ⟨fun lib p X h => ?_, fun lib p count h => ?_, fun lib p X h => ?_,
    fun lib p count h => ?_, fun lib p X h => ?_⟩
  · have hs := ffFit_ok_shape lib p X h
    exact ⟨by rw [hs.1]; rfl, hs.2.2.2.1, hs.2.2.2.2.1, hs.2.2.2.2.2.1⟩
  · rw [ffSample_ok_trace lib p count h]; rfl
  · have hs := tvFit_ok_shape lib p X h
    exact ⟨by rw [hs.1]; rfl, hs.2.2.1, hs.2.2.2.1⟩
  · rw [tvSample_ok_trace lib p count h]; rfl
  · have hs := svFit_ok_shape lib p X h
    exact ⟨by rw [hs.1]; rfl, hs.2⟩

/-- Witness for the amended C3 at explicit fits and generations. -/
theorem submodel_composition_witness :
    exceptIsOk
      (FourierFlowsPlugin.fitImpl trivLib FourierFlowsPlugin.initDefault Xex).2.1 = true ∧
    subModelFitsIn
      (FourierFlowsPlugin.fitImpl trivLib FourierFlowsPlugin.initDefault Xex).2.2 =
      [MethodCall.staticFit, MethodCall.ffFit, MethodCall.tsmFit] ∧
    exceptIsOk (FourierFlowsPlugin.sampleImpl trivLib ffEx 1).1 = true ∧
    subModelDrawsIn (FourierFlowsPlugin.sampleImpl trivLib ffEx 1).2 =
      [MethodCall.staticGenerate, MethodCall.ffSample, MethodCall.tsmPredict] ∧
    exceptIsOk (SurVAEPlugin.fitImpl trivLib svEx XsurvEx).2.1 = true ∧
    subModelFitsIn (SurVAEPlugin.fitImpl trivLib svEx XsurvEx).2.2 =
      [MethodCall.spFit] :=
  ⟨rfl,
   (submodel_composition_of_each_plugin.1 trivLib FourierFlowsPlugin.initDefault
     Xex rfl).1,
   rfl,
   submodel_composition_of_each_plugin.2.1 trivLib ffEx 1 rfl,
   rfl,
   (submodel_composition_of_each_plugin.2.2.2.2 trivLib svEx XsurvEx rfl).1⟩

/-- Counterexample to C4 as stated: immediately after __init__ — before _fit
is ever called — a default-constructed fflows plugin already holds both
encoders and the static and temporal sub-models as instance attributes; only
the outcome model is still missing. -/
theorem fflows_encoders_exist_before_fit :
    FourierFlowsPlugin.initDefault.temporal_encoder.isSome = true ∧
    FourierFlowsPlugin.initDefault.outcome_encoder.isSome = true ∧
    FourierFlowsPlugin.initDefault.static_model.isSome = true ∧
    FourierFlowsPlugin.initDefault.temporal_model.isSome = true ∧
    FourierFlowsPlugin.initDefault.outcome_model = none :=
  ⟨rfl, rfl, rfl, rfl, rfl⟩

/-- Claim C4 (amended): encoders and sub-models are created during __init__
or during _fit and persisted as plugin attributes.  fflows creates its two
encoders and its static and temporal models in __init__ and its outcome model
in _fit; timevae creates its outcome encoder in __init__ and its covariate
and outcome models in _fit; survae creates its pipeline model in _fit.  After
a successful _fit every component exists as an attribute of the instance. -/
theorem component_creation_lifecycle :
    (∀ (n_iter batch_size : Nat) (lr : Val)
        (n_iter_print n_units_hidden n_flows : Nat) (FFT flip normalize : Bool)
        (static_model device : String) (encoder_max_clusters : Nat),
      (FourierFlowsPlugin.init n_iter batch_size lr n_iter_print n_units_hidden
        n_flows FFT flip normalize static_model device
        encoder_max_clusters).temporal_encoder.isSome = true ∧
      (FourierFlowsPlugin.init n_iter batch_size lr n_iter_print n_units_hidden
        n_flows FFT flip normalize static_model device
        encoder_max_clusters).outcome_encoder.isSome = true ∧
      (FourierFlowsPlugin.init n_iter batch_size lr n_iter_print n_units_hidden
        n_flows FFT flip normalize static_model device
        encoder_max_clusters).static_model.isSome = true ∧
      (FourierFlowsPlugin.init n_iter batch_size lr n_iter_print n_units_hidden
        n_flows FFT flip normalize static_model device
        encoder_max_clusters).temporal_model.isSome = true ∧
      (FourierFlowsPlugin.init n_iter batch_size lr n_iter_print n_units_hidden
        n_flows FFT flip normalize static_model device
        encoder_max_clusters).outcome_model = none) ∧
    (∀ (lib : Library) (p : FourierFlowsPlugin) (X : DataLoaderData),
      exceptIsOk (FourierFlowsPlugin.fitImpl lib p X).2.1 = true →
      (FourierFlowsPlugin.fitImpl lib p X).1.temporal_encoder.isSome = true ∧
      (FourierFlowsPlugin.fitImpl lib p X).1.outcome_encoder.isSome = true ∧
      (FourierFlowsPlugin.fitImpl lib p X).1.static_model.isSome = true ∧
      (FourierFlowsPlugin.fitImpl lib p X).1.temporal_model.isSome = true ∧
      (FourierFlowsPlugin.fitImpl lib p X).1.outcome_model.isSome = true) ∧
    (∀ (n_iter dlh duh : Nat) (dn dnd dnc : String) (dbn : Bool) (dd : Val)
        (dr : Bool) (elh euh : Nat) (en : String) (ebn : Bool) (ed lr wd : Val)
        (bs nip rs cv emc : Nat) (enc : Option Nat) (device mode : String)
        (gp mp ep : Val),
      (TimeVAEPlugin.init n_iter dlh duh dn dnd dnc dbn dd dr elh euh en ebn ed
        lr wd bs nip rs cv emc enc device mode gp mp ep).outcome_encoder.isSome = true ∧
      (TimeVAEPlugin.init n_iter dlh duh dn dnd dnc dbn dd dr elh euh en ebn ed
        lr wd bs nip rs cv emc enc device mode gp mp ep).cov_model = none ∧
      (TimeVAEPlugin.init n_iter dlh duh dn dnd dnc dbn dd dr elh euh en ebn ed
        lr wd bs nip rs cv emc enc device mode gp mp ep).outcome_model = none) ∧
    (∀ (lib : Library) (p : TimeVAEPlugin) (X : DataLoaderData),
      exceptIsOk (TimeVAEPlugin.fitImpl lib p X).2.1 = true →
      (TimeVAEPlugin.fitImpl lib p X).1.outcome_encoder.isSome = true ∧
      (TimeVAEPlugin.fitImpl lib p X).1.cov_model.isSome = true ∧
      (TimeVAEPlugin.fitImpl lib p X).1.outcome_model.isSome = true) ∧
    (∀ (u d t c dev : String) (kw : KwArgs) (s : SurVAEPlugin),
      SurVAEPlugin.init u d t c dev kw = .ok s → s.model = none) ∧
    (∀ (lib : Library) (p : SurVAEPlugin) (X : DataLoaderData),
      exceptIsOk (SurVAEPlugin.fitImpl lib p X).2.1 = true →
      (SurVAEPlugin.fitImpl lib p X).1.model.isSome = true) := by
  refine ⟨fun _ _ _ _ _ _ _ _ _ _ _ _ => ⟨rfl, rfl, rfl, rfl, rfl⟩,
    fun lib p X h => ?_,
    fun _ _ _ _ _ _ _ _ _ _ _ _ _ _ _ _ _ _ _ _ _ _ _ _ _ _ _ =>
      ⟨rfl, rfl, rfl⟩,
    fun lib p X h => ?_, fun u d t c dev kw s hs => ?_, fun lib p X h => ?_⟩
  · have hs := ffFit_ok_shape lib p X h
    exact ⟨hs.2.1, hs.2.2.1, hs.2.2.2.1, hs.2.2.2.2.1, hs.2.2.2.2.2.1⟩
  · have hs := tvFit_ok_shape lib p X h
    exact ⟨hs.2.1, hs.2.2.1, hs.2.2.2.1⟩
  · unfold SurVAEPlugin.init at hs
    split at hs
    · injection hs with hs2
      rw [← hs2]
    · exact Except.noConfusion hs
  · exact (svFit_ok_shape lib p X h).2

/-- Witness for the amended C4 at explicit constructions and fits. -/
theorem component_creation_lifecycle_witness :
    exceptIsOk
      (FourierFlowsPlugin.fitImpl trivLib FourierFlowsPlugin.initDefault Xex).2.1 = true ∧
    (FourierFlowsPlugin.fitImpl trivLib FourierFlowsPlugin.initDefault
      Xex).1.outcome_model.isSome = true ∧
    exceptIsOk
      (TimeVAEPlugin.fitImpl trivLib TimeVAEPlugin.initDefault Xex).2.1 = true ∧
    (TimeVAEPlugin.fitImpl trivLib TimeVAEPlugin.initDefault
      Xex).1.cov_model.isSome = true ∧
    svEx.model = none ∧
    exceptIsOk (SurVAEPlugin.fitImpl trivLib svEx XsurvEx).2.1 = true ∧
    (SurVAEPlugin.fitImpl trivLib svEx XsurvEx).1.model.isSome = true :=
  ⟨rfl,
   (component_creation_lifecycle.2.1 trivLib FourierFlowsPlugin.initDefault Xex
     rfl).2.2.2.2,
   rfl,
   (component_creation_lifecycle.2.2.2.1 trivLib TimeVAEPlugin.initDefault Xex
     rfl).2.1,
   component_creation_lifecycle.2.2.2.2.1 "survival_function_regression"
     "imbalanced_time_censoring" "survival_function" "random" "cpu" [] svEx rfl,
   rfl,
   component_creation_lifecycle.2.2.2.2.2 trivLib svEx XsurvEx rfl⟩

/-- Counterexample to C5 as stated: on an explicit successful fit, fflows
_fit interleaves encoding and sub-model fitting — the outcome encoder is
fitted only after the static and temporal models — so the encode phase does
not entirely precede sub-model fitting. -/
theorem fflows_fit_interleaves_phases :
    (FourierFlowsPlugin.fitImpl trivLib FourierFlowsPlugin.initDefault Xex).2.1 =
      Except.ok () ∧
    encodePhaseFirst
      (FourierFlowsPlugin.fitImpl trivLib FourierFlowsPlugin.initDefault Xex).2.2 =
      false :=
  ⟨rfl, rfl⟩

/-- Claim C5 (amended): composition is linear per data stream rather than
strictly phase-ordered.  A successful fflows _fit performs exactly, in order:
temporal encoding (fit_temporal, transform_temporal), static model fit,
temporal model fit, outcome encoding (fit, transform, activation_layout),
outcome model fit — each sub-model is fitted after the data it consumes has
been encoded.  The fflows sampler performs exactly: static generate, temporal
sample, temporal decode, outcome predict, outcome decode, and reassembles
schema-shaped frames last.  A successful timevae _fit performs exactly:
covariate model fit, outcome encoding, outcome model fit, and its sampler:
covariate generate, outcome predict, outcome decode. -/
theorem pipeline_call_order :
    (∀ (lib : Library) (p : FourierFlowsPlugin) (X : DataLoaderData),
      exceptIsOk (FourierFlowsPlugin.fitImpl lib p X).2.1 = true →
      (FourierFlowsPlugin.fitImpl lib p X).2.2 = fflowsFitTrace) ∧
    (∀ (lib : Library) (p : FourierFlowsPlugin) (count : Nat),
      exceptIsOk (FourierFlowsPlugin.sampleImpl lib p count).1 = true →
      (FourierFlowsPlugin.sampleImpl lib p count).2 = fflowsSampleTrace) ∧
    (∀ (lib : Library) (p : TimeVAEPlugin) (X : DataLoaderData),
      exceptIsOk (TimeVAEPlugin.fitImpl lib p X).2.1 = true →
      (TimeVAEPlugin.fitImpl lib p X).2.2 = timevaeFitTrace) ∧
    (∀ (lib : Library) (p : TimeVAEPlugin) (count : Nat),
      exceptIsOk (TimeVAEPlugin.sampleImpl lib p count).1 = true →
      (TimeVAEPlugin.sampleImpl lib p count).2 = timevaeSampleTrace) :=
  ⟨fun lib p X h => (ffFit_ok_shape lib p X h).1,
   fun lib p count h => ffSample_ok_trace lib p count h,
   fun lib p X h => (tvFit_ok_shape lib p X h).1,
   fun lib p count h => tvSample_ok_trace lib p count h⟩

/-- Witness for the amended C5 at explicit fits and generations. -/
theorem pipeline_call_order_witness :
    exceptIsOk
      (FourierFlowsPlugin.fitImpl trivLib FourierFlowsPlugin.initDefault Xex).2.1 = true ∧
    (FourierFlowsPlugin.fitImpl trivLib FourierFlowsPlugin.initDefault Xex).2.2 =
      fflowsFitTrace ∧
    exceptIsOk (FourierFlowsPlugin.sampleImpl trivLib ffEx 1).1 = true ∧
    (FourierFlowsPlugin.sampleImpl trivLib ffEx 1).2 = fflowsSampleTrace ∧
    exceptIsOk (TimeVAEPlugin.fitImpl trivLib TimeVAEPlugin.initDefault Xex).2.1 = true ∧
    (TimeVAEPlugin.fitImpl trivLib TimeVAEPlugin.initDefault Xex).2.2 =
      timevaeFitTrace ∧
    exceptIsOk (TimeVAEPlugin.sampleImpl trivLib tvEx 1).1 = true ∧
    (TimeVAEPlugin.sampleImpl trivLib tvEx 1).2 = timevaeSampleTrace :=
  ⟨rfl,
   pipeline_call_order.1 trivLib FourierFlowsPlugin.initDefault Xex rfl,
   rfl,
   pipeline_call_order.2.1 trivLib ffEx 1 rfl,
   rfl,
   pipeline_call_order.2.2.1 trivLib TimeVAEPlugin.initDefault Xex rfl,
   rfl,
   pipeline_call_order.2.2.2 trivLib tvEx 1 rfl⟩

/-- The fflows sampler body returns exactly count temporal frames and count
horizons (when the opaque temporal sampler and static generator honour the
requested count), with the i-th frame and the i-th horizon decoded from the
i-th encoded sample. -/
theorem ffSampleCore_count_pairing (lib : Library)
    (te : TimeSeriesTabularEncoderState) (oe : TabularEncoderState)
    (sm : GenericModelState) (tm : FourierFlowState) (om : TimeSeriesModelState)
    (sc tc oc : List String) (di : DataInfo) (count : Nat)
    (hn : (lib.ffSample tm.state count).length = count)
    (hs : (lib.genericGenerate sm.state count).length = count) :
    okCheck (fun o =>
      (o.temporalPart.length == count) &&
      (o.horizonsPart.length == count) &&
      (o.temporalPart == (lib.ffSample tm.state count).map fun item =>
        ({ columns := di.temporal_features,
           rows := lib.teDecodeSample te.state { columns := tc, rows := item } } :
          DataFrame)) &&
      (o.horizonsPart == ((lib.genericGenerate sm.state count).map
          (List.drop sc.length)).map (lib.teDecodeHorizon te.state)))
      (FourierFlowsPlugin.sampleCore lib te oe sm tm om sc tc oc di count) = true := by
  unfold FourierFlowsPlugin.sampleCore
    TimeSeriesTabularEncoderState.inverse_transform_temporal
  split_ifs with h1 h2
  · simp [okCheck, SampleOutput.temporalPart, SampleOutput.horizonsPart,
      List.map_map, Function.comp, hn, hs]
  · refine survivalBranch_okCheck _ _ _ _ _ _ fun T E => ?_
    simp [SampleOutput.temporalPart, SampleOutput.horizonsPart, List.map_map,
      Function.comp, hn, hs]
  · rfl

/-- Claim C6: generated temporal sequences preserve per-sample count and
pairing.  For every fitted fflows plugin and every count — assuming the
opaque temporal model and static model honour the requested sample count,
which is their library contract — the sampler returns exactly count temporal
frames and count horizons, and the frame and horizon at each index i are the
decodings of the i-th sampled encoded sequence and the i-th generated encoded
horizon: the pairing of sequence and horizon is preserved through
inverse_transform_temporal. -/
theorem fflows_sampler_count_and_pairing (lib : Library)
    (p : FourierFlowsPlugin) (count : Nat)
    (te : TimeSeriesTabularEncoderState) (oe : TabularEncoderState)
    (sm : GenericModelState) (tm : FourierFlowState) (om : TimeSeriesModelState)
    (sc tc oc : List String) (di : DataInfo)
    (hte : p.temporal_encoder = some te) (hoe : p.outcome_encoder = some oe)
    (hsm : p.static_model = some sm) (htm : p.temporal_model = some tm)
    (hom : p.outcome_model = some om) (hsc : p.static_columns = some sc)
    (htc : p.temporal_encoded_columns = some tc)
    (hoc : p.outcome_encoded_columns = some oc) (hdi : p.data_info = some di)
    (hn : (lib.ffSample tm.state count).length = count)
    (hs : (lib.genericGenerate sm.state count).length = count) :
    okCheck (fun o =>
      (o.temporalPart.length == count) &&
      (o.horizonsPart.length == count) &&
      (o.temporalPart == (lib.ffSample tm.state count).map fun item =>
        ({ columns := di.temporal_features,
           rows := lib.teDecodeSample te.state { columns := tc, rows := item } } :
          DataFrame)) &&
      (o.horizonsPart == ((lib.genericGenerate sm.state count).map
          (List.drop sc.length)).map (lib.teDecodeHorizon te.state)))
      (FourierFlowsPlugin.sampleImpl lib p count).1 = true := by
  simp only [FourierFlowsPlugin.sampleImpl, hte, hoe, hsm, htm, hom, hsc, htc,
    hoc, hdi]
  exact ffSampleCore_count_pairing lib te oe sm tm om sc tc oc di count hn hs

/-- Witness for C6 at the concrete fitted fflows plugin and count 1. -/
theorem fflows_sampler_count_and_pairing_witness :
    (ffEx.temporal_encoder = some teEx ∧ ffEx.outcome_encoder = some oeEx ∧
     ffEx.static_model = some smEx ∧ ffEx.temporal_model = some tmEx ∧
     ffEx.outcome_model = some omEx ∧ ffEx.static_columns = some scEx ∧
     ffEx.temporal_encoded_columns = some tcEx ∧
     ffEx.outcome_encoded_columns = some ocEx ∧ ffEx.data_info = some diEx ∧
     (trivLib.ffSample tmEx.state 1).length = 1 ∧
     (trivLib.genericGenerate smEx.state 1).length = 1) ∧
    okCheck (fun o =>
      (o.temporalPart.length == 1) &&
      (o.horizonsPart.length == 1) &&
      (o.temporalPart == (trivLib.ffSample tmEx.state 1).map fun item =>
        ({ columns := diEx.temporal_features,
           rows := trivLib.teDecodeSample teEx.state
             { columns := tcEx, rows := item } } : DataFrame)) &&
      (o.horizonsPart == ((trivLib.genericGenerate smEx.state 1).map
          (List.drop scEx.length)).map (trivLib.teDecodeHorizon teEx.state)))
      (FourierFlowsPlugin.sampleImpl trivLib ffEx 1).1 = true :=
  ⟨⟨rfl, rfl, rfl, rfl, rfl, rfl, rfl, rfl, rfl, rfl, rfl⟩,
   fflows_sampler_count_and_pairing trivLib ffEx 1 teEx oeEx smEx tmEx omEx
     scEx tcEx ocEx diEx rfl rfl rfl rfl rfl rfl rfl rfl rfl rfl rfl⟩

/-- Claim C7: every plugin exposes the Plugin interface and the static
identifiers are fixed: survae is a survival_analysis plugin, fflows and
timevae are time_series plugins, for every call. -/
theorem plugin_names_and_types :
    FourierFlowsPlugin.name = "fflows" ∧
    FourierFlowsPlugin.type = "time_series" ∧
    TimeVAEPlugin.name = "timevae" ∧ TimeVAEPlugin.type = "time_series" ∧
    SurVAEPlugin.name = "survae" ∧ SurVAEPlugin.type = "survival_analysis" :=
  ⟨rfl, rfl, rfl, rfl, rfl, rfl⟩

/-- Claim C8: SurVAEPlugin.__init__ raises ValueError if and only if the
dataloader sampling strategy is not one of none, imbalanced_censoring,
imbalanced_time_censoring; for every valid strategy the constructor succeeds
and stores tte_strategy, censoring_strategy, uncensoring_model, device and
kwargs unchanged on the instance. -/
theorem survae_init_validates_and_stores (u d t c dev : String) (kw : KwArgs) :
    (exceptIsOk (SurVAEPlugin.init u d t c dev kw) = true ↔
      d ∈ validSamplingStrategies) ∧
    (d ∈ validSamplingStrategies →
      SurVAEPlugin.init u d t c dev kw =
        .ok { tte_strategy := t, censoring_strategy := c,
              uncensoring_model := u, device := dev, kwargs := kw }) := by
  unfold SurVAEPlugin.init
  by_cases h : d ∈ validSamplingStrategies <;> simp [h, exceptIsOk]

/-- Witness for C8: the default strategy is valid and the constructor stores
the arguments unchanged. -/
theorem survae_init_witness :
    ("imbalanced_time_censoring" ∈ validSamplingStrategies) ∧
    SurVAEPlugin.init "survival_function_regression"
      "imbalanced_time_censoring" "survival_function" "random" "cpu" [] =
      .ok { tte_strategy := "survival_function", censoring_strategy := "random",
            uncensoring_model := "survival_function_regression",
            device := "cpu", kwargs := [] } :=
  ⟨by decide,
   (survae_init_validates_and_stores "survival_function_regression"
     "imbalanced_time_censoring" "survival_function" "random" "cpu" []).2
     (by decide)⟩

/-- A failed column selection always reports the missing key. -/
theorem getCol_error_is_keyError (df : DataFrame) (c : String) (e : PyError)
    (h : df.getCol c = .error e) : e = .keyError c := by
  unfold DataFrame.getCol at h
  split at h
  · exact Except.noConfusion h
  · injection h with h1
    exact h1.symm

/-- The survival return branch can fail only with a KeyError, never with a
RuntimeError. -/
theorem survivalBranch_not_runtimeError (static : DataFrame)
    (temporal : List DataFrame) (horizons : Horizons) (outcome : DataFrame)
    (di : DataInfo) (msg : String) :
    survivalBranch static temporal horizons outcome di ≠
      Except.error (PyError.runtimeError msg) := by
  unfold survivalBranch
  rcases hT : outcome.getCol di.time_to_event_column with eT | T
  · have hk := getCol_error_is_keyError _ _ _ hT
    subst hk
    intro hcon
    exact PyError.noConfusion (Except.error.inj hcon)
  · rcases hE : outcome.getCol di.event_column with eE | E
    · have hk := getCol_error_is_keyError _ _ _ hE
      subst hk
      intro hcon
      exact PyError.noConfusion (Except.error.inj hcon)
    · intro hcon
      exact Except.noConfusion hcon

/-- The fflows sampler body cannot reach the unknown-data-type branch when
the data type is one of the two asserted by _fit. -/
theorem ffSampleCore_not_runtimeError (lib : Library)
    (te : TimeSeriesTabularEncoderState) (oe : TabularEncoderState)
    (sm : GenericModelState) (tm : FourierFlowState) (om : TimeSeriesModelState)
    (sc tc oc : List String) (di : DataInfo) (count : Nat)
    (hd : di.data_type = "time_series" ∨
      di.data_type = "time_series_survival") :
    FourierFlowsPlugin.sampleCore lib te oe sm tm om sc tc oc di count ≠
      Except.error (PyError.runtimeError "unknow data type") := by
  unfold FourierFlowsPlugin.sampleCore
  rcases hd with hd | hd <;> rw [hd] <;>
    simp [survivalBranch_not_runtimeError]

/-- The timevae sampler body cannot reach the unknown-data-type branch when
the data type is one of the two asserted by _fit. -/
theorem tvSampleCore_not_runtimeError (lib : Library)
    (oe : TabularEncoderState) (cm : CovModelState) (om : TimeSeriesModelState)
    (oc : List String) (di : DataInfo) (count : Nat)
    (hd : di.data_type = "time_series" ∨
      di.data_type = "time_series_survival") :
    TimeVAEPlugin.sampleCore lib oe cm om oc di count ≠
      Except.error (PyError.runtimeError "unknow data type") := by
  unfold TimeVAEPlugin.sampleCore
  rcases hd with hd | hd <;> rw [hd] <;>
    simp [survivalBranch_not_runtimeError]

/-- Claim C9: for every plugin instance on which _fit succeeded — so
data_info records data_type time_series or time_series_survival, as asserted
at the start of _fit — the RuntimeError (unknow data type) branch inside the
_generate sampler of fflows and timevae is unreachable. -/
theorem unknown_data_type_unreachable :
    (∀ (lib : Library) (p : FourierFlowsPlugin) (count : Nat) (di : DataInfo),
      p.data_info = some di →
      (di.data_type = "time_series" ∨
        di.data_type = "time_series_survival") →
      (FourierFlowsPlugin.sampleImpl lib p count).1 ≠
        Except.error (PyError.runtimeError "unknow data type")) ∧
    (∀ (lib : Library) (p : TimeVAEPlugin) (count : Nat) (di : DataInfo),
      p.data_info = some di →
      (di.data_type = "time_series" ∨
        di.data_type = "time_series_survival") →
      (TimeVAEPlugin.sampleImpl lib p count).1 ≠
        Except.error (PyError.runtimeError "unknow data type")) := by
  constructor
  · intro lib p count di hdi hd
    rcases hte : p.temporal_encoder with _ | te
    · simp [FourierFlowsPlugin.sampleImpl, hte]
    rcases hoe : p.outcome_encoder with _ | oe
    · simp [FourierFlowsPlugin.sampleImpl, hte, hoe]
    rcases hsm : p.static_model with _ | sm
    · simp [FourierFlowsPlugin.sampleImpl, hte, hoe, hsm]
    rcases htm : p.temporal_model with _ | tm
    · simp [FourierFlowsPlugin.sampleImpl, hte, hoe, hsm, htm]
    rcases hom : p.outcome_model with _ | om
    · simp [FourierFlowsPlugin.sampleImpl, hte, hoe, hsm, htm, hom]
    rcases hsc : p.static_columns with _ | sc
    · simp [FourierFlowsPlugin.sampleImpl, hte, hoe, hsm, htm, hom, hsc]
    rcases htc : p.temporal_encoded_columns with _ | tc
    · simp [FourierFlowsPlugin.sampleImpl, hte, hoe, hsm, htm, hom, hsc, htc]
    rcases hoc : p.outcome_encoded_columns with _ | oc
    · simp [FourierFlowsPlugin.sampleImpl, hte, hoe, hsm, htm, hom, hsc, htc,
        hoc]
    simp only [FourierFlowsPlugin.sampleImpl, hte, hoe, hsm, htm, hom, hsc,
      htc, hoc, hdi]
    exact ffSampleCore_not_runtimeError lib te oe sm tm om sc tc oc di count hd
  · intro lib p count di hdi hd
    rcases hoe : p.outcome_encoder with _ | oe
    · simp [TimeVAEPlugin.sampleImpl, hoe]
    rcases hcm : p.cov_model with _ | cm
    · simp [TimeVAEPlugin.sampleImpl, hoe, hcm]
    rcases hom : p.outcome_model with _ | om
    · simp [TimeVAEPlugin.sampleImpl, hoe, hcm, hom]
    rcases hoc : p.outcome_encoded_columns with _ | oc
    · simp [TimeVAEPlugin.sampleImpl, hoe, hcm, hom, hoc]
    simp only [TimeVAEPlugin.sampleImpl, hoe, hcm, hom, hoc, hdi]
    exact tvSampleCore_not_runtimeError lib oe cm om oc di count hd

/-- Witness for C9 at the concrete fitted plugins. -/
theorem unknown_data_type_unreachable_witness :
    (ffEx.data_info = some diEx ∧ tvEx.data_info = some diEx ∧
      (diEx.data_type = "time_series" ∨
        diEx.data_type = "time_series_survival")) ∧
    (FourierFlowsPlugin.sampleImpl trivLib ffEx 1).1 ≠
      Except.error (PyError.runtimeError "unknow data type") ∧
    (TimeVAEPlugin.sampleImpl trivLib tvEx 1).1 ≠
      Except.error (PyError.runtimeError "unknow data type") :=
  ⟨⟨rfl, rfl, Or.inl rfl⟩,
   unknown_data_type_unreachable.1 trivLib ffEx 1 diEx rfl (Or.inl rfl),
   unknown_data_type_unreachable.2 trivLib tvEx 1 diEx rfl (Or.inl rfl)⟩

/-- Claim C10: SurVAEPlugin.hyperparameter_space delegates to the tvae
plugin's hyperparameter space.  Whenever the (opaque, out-of-src) tvae space
does not depend on its kwargs — the behaviour every hyperparameter_space in
this repository exhibits — the survae space equals the tvae space at the same
kwargs, with no distribution added, removed or reordered; the right-hand side
is the spec's reading, stated as its own definition. -/
theorem survae_space_equals_tvae_space (lib : Library)
    (h : ∀ kw, lib.tvaeHyperparameterSpace kw = lib.tvaeHyperparameterSpace [])
    (kwargs : KwArgs) :
    SurVAEPlugin.hyperparameter_space lib kwargs =
      survaeHyperparameterSpaceSpec lib kwargs :=
  (h kwargs).symm

/-- Witness for C10 at a concrete library and concrete kwargs. -/
theorem survae_space_equals_tvae_space_witness :
    SurVAEPlugin.hyperparameter_space trivLib [("strategy", PyVal.str "x")] =
      survaeHyperparameterSpaceSpec trivLib [("strategy", PyVal.str "x")] :=
  survae_space_equals_tvae_space trivLib (fun _ => rfl)
    [("strategy", PyVal.str "x")]

end Synthcity
